import Mathlib

/-! xsocket: a shallow embedding of the socket wrapper.

The C functions of `xsocket.c` are embedded as state-passing programs over an
explicit trace of the operating-system primitives they invoke.  The operating
system is an oracle: the value a primitive returns may depend on everything
that happened before it.  `exit` is an outcome of its own, so that a path that
terminates the process is distinguished from one that returns to the caller.
-/

namespace XSocket

/-! ## Build configuration -/

/-- The preprocessor configuration the sources are compiled under, together
with the two platform facts the code depends on: the byte order of the host
and the value of the `O_NONBLOCK` flag bit. -/
structure Build where
  WIN32 : Bool
  MSC_VER : Bool
  bigEndian : Bool
  O_NONBLOCK : Int
  deriving DecidableEq, Repr

/-! ## Operating-system primitives -/

inductive AddrFamily where
  | AF_INET
  deriving DecidableEq, Repr

inductive SockType where
  | SOCK_STREAM
  | SOCK_DGRAM
  deriving DecidableEq, Repr

/-- The third argument of `socket`; `zero` is the literal `0`. -/
inductive Protocol where
  | IPPROTO_TCP
  | IPPROTO_UDP
  | zero
  deriving DecidableEq, Repr

inductive Level where
  | IPPROTO_IP
  | SOL_SOCKET
  deriving DecidableEq, Repr

inductive OptName where
  | IP_MULTICAST_LOOP
  | IP_MULTICAST_TTL
  | IP_MULTICAST_IF
  | IP_ADD_MEMBERSHIP
  | SO_RCVBUF
  deriving DecidableEq, Repr

inductive FcntlCmd where
  | F_GETFL
  | F_SETFL
  deriving DecidableEq, Repr

/-- The fields of `struct sockaddr_in` the code assigns; `sin_port` and
`s_addr` hold the network-byte-order values as the host reads them. -/
structure sockaddr_in where
  sin_family : AddrFamily
  sin_port : Nat
  s_addr : Nat
  deriving DecidableEq, Repr

/-- The object an option-setting call points at. -/
inductive OptVal where
  | char (v : Int)
  | in_addr (s_addr : Nat)
  | ip_mreq (imr_multiaddr : Nat) (imr_interface : Nat)
  | int (v : Int)
  deriving DecidableEq, Repr

/-- An argument of a `printf` call. -/
inductive PArg where
  | s (v : String)
  | d (v : Int)
  deriving DecidableEq, Repr

/-- One invocation of a primitive of the platform, with its arguments. -/
inductive Call where
  | socket (af : AddrFamily) (type : SockType) (protocol : Protocol)
  | bind (fd : Int) (sa : sockaddr_in)
  | listen (fd : Int) (backlog : Int)
  | connect (fd : Int) (sa : sockaddr_in)
  | accept (fd : Int)
  | select (nfds : Int) (readfd : Int) (tv_sec : Int) (tv_usec : Int)
  | setsockopt (fd : Int) (level : Level) (optname : OptName) (optval : OptVal)
  | getsockopt (fd : Int) (level : Level) (optname : OptName)
  | ioctlsocket_FIONBIO (fd : Int) (arg : Int)
  | fcntl (fd : Int) (cmd : FcntlCmd) (arg : Int)
  | close (fd : Int)
  | closesocket (fd : Int)
  | gethostbyname (name : String)
  | inet_pton (af : AddrFamily) (src : String)
  | send (fd : Int) (data : List Nat) (len : Int) (flags : Int)
  | recv (fd : Int) (len : Int) (flags : Int)
  | printf (fmt : String) (args : List PArg)
  | perror (s : String)
  deriving DecidableEq, Repr

/-- The primitives invoked so far, oldest first. -/
abbrev Trace := List Call

/-- The operating system as an oracle over the history of the run.
`ret` is the value a primitive returns, `out` the value it stores through its
output pointer (the option value of `getsockopt`, the resolved address of
`gethostbyname` and `inet_pton`, the membership bit left in the descriptor
set by `select`), `errno` the error number at that point. -/
structure Os where
  ret : Trace → Call → Int
  out : Trace → Call → Int
  errno : Trace → Int

/-- How a run ends: it hands a value back to its caller, or the process is
terminated by `exit` with a status. -/
inductive Outcome (α : Type) where
  | value (v : α)
  | exited (status : Int)
  deriving DecidableEq, Repr

/-- A program: from the oracle and the history so far to an outcome and the
extended history. -/
def Run (α : Type) : Type := Os → Trace → Outcome α × Trace

def Run.pure {α : Type} (a : α) : Run α := fun _ tr => (Outcome.value a, tr)

def Run.bind {α β : Type} (m : Run α) (f : α → Run β) : Run β := fun os tr =>
  match m os tr with
  | (Outcome.value a, tr1) => f a os tr1
  | (Outcome.exited st, tr1) => (Outcome.exited st, tr1)

instance : Monad Run where
  pure := Run.pure
  bind := Run.bind

/-- Invoke a primitive and take its return value. -/
def sys (c : Call) : Run Int := fun os tr => (Outcome.value (os.ret tr c), tr ++ [c])

/-- Invoke a primitive and take both its return value and the value it stores
through its output pointer. -/
def sys_out (c : Call) : Run (Int × Int) := fun os tr =>
  (Outcome.value (os.ret tr c, os.out tr c), tr ++ [c])

/-- Invoke a primitive whose return value the code ignores. -/
def sys_void (c : Call) : Run Unit := fun _ tr => (Outcome.value (), tr ++ [c])

def printf (fmt : String) (args : List PArg) : Run Unit := sys_void (Call.printf fmt args)

def perror (s : String) : Run Unit := sys_void (Call.perror s)

/-- The call `exit(status)`: the process ends, nothing is returned. -/
def exit {α : Type} (status : Int) : Run α := fun _ tr => (Outcome.exited status, tr)

/-- The value of `errno` at this point of the run. -/
def errno : Run Int := fun os tr => (Outcome.value (os.errno tr), tr)

/-! ## Machine integers -/

/-- Reduction of an integer into the range of a 32-bit signed `int`. -/
def wrap32 (x : Int) : Int := (x + 2147483648) % 4294967296 - 2147483648

/-! ## Constants of `xsocket.h` and `xsocket.c` -/

/-- The macro `INVALID_SOCKET`, `(socket_t)(~0)` with `socket_t` an `int`. -/
def INVALID_SOCKET : Int := -1

/-- The macro `SOCKET_ERROR`. -/
def SOCKET_ERROR : Int := -1

/-- The macro `MAX_CONN`, the queue length handed to `listen`. -/
def MAX_CONN : Int := 5

/-- The constant `size_flush_buf_min`, `16 << 20`. -/
def size_flush_buf_min : Int := 16 * 2 ^ 20

/-- The constant `size_flush_buf_max`, `128 << 20`. -/
def size_flush_buf_max : Int := 128 * 2 ^ 20

/-- The system constant `INADDR_ANY`. -/
def INADDR_ANY : Nat := 0

/-- The system constant `INADDR_NONE`, what `inet_addr` returns for a string
it cannot parse. -/
def INADDR_NONE : Nat := 0xffffffff

/-! ## Byte order and address parsing (platform primitives) -/

/-- Reversal of the four bytes of a 32-bit word. -/
def bswap32 (x : Nat) : Nat :=
  (x % 256) * 16777216 + (x / 256 % 256) * 65536 + (x / 65536 % 256) * 256 + (x / 16777216 % 256)

/-- Reversal of the two bytes of a 16-bit word. -/
def bswap16 (x : Nat) : Nat := (x % 256) * 256 + (x / 256 % 256)

/-- Modelled from the spec: the system primitive `htonl` is not under src/; it
converts a 32-bit word from host to network (big-endian) byte order. -/
def htonl (b : Build) (x : Nat) : Nat :=
  if b.bigEndian then x % 4294967296 else bswap32 x

/-- Modelled from the spec: the system primitive `ntohl` is not under src/; it
converts a 32-bit word from network to host byte order. -/
def ntohl (b : Build) (x : Nat) : Nat :=
  if b.bigEndian then x % 4294967296 else bswap32 x

/-- Modelled from the spec: the system primitive `htons` is not under src/; it
converts a 16-bit word from host to network byte order. -/
def htons (b : Build) (x : Nat) : Nat :=
  if b.bigEndian then x % 65536 else bswap16 x

/-- Modelled from the spec: part of the system primitive `inet_addr`, which is
not under src/.  Value of a character as a digit in a base up to sixteen. -/
def digitVal (c : Char) : Option Nat :=
  if '0' ≤ c ∧ c ≤ '9' then some (c.toNat - 48)
  else if 'a' ≤ c ∧ c ≤ 'f' then some (c.toNat - 87)
  else if 'A' ≤ c ∧ c ≤ 'F' then some (c.toNat - 55)
  else none

/-- Modelled from the spec: part of the system primitive `inet_addr`, which is
not under src/.  Accumulates the longest run of digits valid in `base`. -/
def takeDigits (base : Nat) : List Char → Nat → Nat × List Char
  | [], acc => (acc, [])
  | c :: cs, acc =>
    match digitVal c with
    | some v => if v < base then takeDigits base cs (acc * base + v) else (acc, c :: cs)
    | none => (acc, c :: cs)

/-- Modelled from the spec: part of the system primitive `inet_addr`, which is
not under src/.  A number in C notation, as `strtoul` with base `0` reads it: `0x` starts
hexadecimal, a leading `0` octal, anything else decimal.  The unread rest of
the input is returned with the value. -/
def strtoul0 (s : List Char) : Nat × List Char :=
  match s with
  | '0' :: cs =>
    match cs with
    | [] => (0, [])
    | x :: tl =>
      if x = 'x' ∨ x = 'X' then
        match tl with
        | [] => (0, cs)
        | c :: _ => if (digitVal c).isSome then takeDigits 16 tl 0 else (0, cs)
      else takeDigits 8 cs 0
  | _ => takeDigits 10 s 0

/-- Modelled from the spec: part of the system primitive `inet_addr`, which is
not under src/.  Host-order value of an address whose leading bytes are
`bytes` and whose last part is `val`. -/
def assemble (bytes : List Nat) (val : Nat) : Nat :=
  match bytes with
  | [] => val
  | [a] => a * 16777216 + val
  | [a, b] => a * 16777216 + b * 65536 + val
  | [a, b, c] => a * 16777216 + b * 65536 + c * 256 + val
  | _ => val

/-- Modelled from the spec: part of the system primitive `inet_addr`, which is
not under src/.  Largest value the last part may take after `n` leading
bytes. -/
def lastPartMax (n : Nat) : Nat :=
  match n with
  | 0 => 0xffffffff
  | 1 => 0xffffff
  | 2 => 0xffff
  | _ => 0xff

/-- Modelled from the spec: part of the system primitive `inet_addr`, which is
not under src/.  The part-by-part loop of `inet_aton`: up to four numbers separated by
dots, `dots` being how many more dots may still follow; the result is the
address in host order, `none` when the string is not an address. -/
def inet_aton_loop : Nat → List Char → List Nat → Option Nat
  | dots, cs, bytes =>
    match cs with
    | [] => none
    | c :: _ =>
      if ¬ ('0' ≤ c ∧ c ≤ '9') then none
      else
        let p := strtoul0 cs
        if p.1 > 0xffffffff then none
        else
          match p.2 with
          | '.' :: rest =>
            match dots with
            | 0 => none
            | n + 1 => if p.1 > 0xff then none else inet_aton_loop n rest (bytes ++ [p.1])
          | [] => if p.1 > lastPartMax bytes.length then none else some (assemble bytes p.1)
          | t :: _ =>
            if t = ' ' ∨ t = '\t' ∨ t = '\n' ∨ t = '\x0b' ∨ t = '\x0c' ∨ t = '\r' then
              (if p.1 > lastPartMax bytes.length then none else some (assemble bytes p.1))
            else none

/-- Modelled from the spec: the system primitive `inet_addr` is not under
src/; it reads an IPv4 address in dotted notation (section 6, "dotted-decimal
IPv4 strings") and returns it in network byte order, or `INADDR_NONE` when
the string is not an address. -/
def inet_addr (b : Build) (cp : String) : Nat :=
  match inet_aton_loop 3 cp.data [] with
  | some v => htonl b v
  | none => INADDR_NONE

/-- Modelled from the spec: the system macro `IN_MULTICAST` is not under src/;
it tests the four leading bits of a host-order address for the class D
pattern `1110`, the range 224.0.0.0 to 239.255.255.255 of the source comment
and of the spec. -/
def IN_MULTICAST (a : Nat) : Bool := (a % 4294967296) &&& 0xf0000000 == 0xe0000000

/-- The text of the dotted-decimal literal `a.b.c.d`. -/
def dotted (a b c d : Nat) : String :=
  toString a ++ "." ++ toString b ++ "." ++ toString c ++ "." ++ toString d

/-! ## `xsocket.c` -/

/-- The function `set_non_blocking` (xsocket.c, lines 76 to 103): zero on
success, `-1` otherwise. -/
def set_non_blocking (b : Build) (fd : Int) (on_ : Int) : Run Int :=
  if b.WIN32 then do
    let r ← sys (Call.ioctlsocket_FIONBIO fd on_)
    if r = SOCKET_ERROR then
      return -1
    return 0
  else do
    let flags ← sys (Call.fcntl fd FcntlCmd.F_GETFL 0)
    if flags < 0 then
      return -1
    let flags := if on_ ≠ 0 then Int.lor flags b.O_NONBLOCK
      else Int.land flags (Int.lnot b.O_NONBLOCK)
    let r ← sys (Call.fcntl fd FcntlCmd.F_SETFL flags)
    if r < 0 then
      return -1
    return 0

/-- The function `socket_close` (lines 112 to 120). -/
def socket_close (b : Build) (fd : Int) : Run Unit :=
  if b.WIN32 then sys_void (Call.closesocket fd) else sys_void (Call.close fd)

/-- The function `socket_create_tcp_listen` (lines 173 to 209). -/
def socket_create_tcp_listen (b : Build) (s_if_ip : String) (port : Nat) : Run Int := do
  let fd ← sys (Call.socket AddrFamily.AF_INET SockType.SOCK_STREAM Protocol.IPPROTO_TCP)
  if fd = INVALID_SOCKET then
    return INVALID_SOCKET
  let sa := sockaddr_in.mk AddrFamily.AF_INET (htons b port) (inet_addr b s_if_ip)
  let r ← sys (Call.bind fd sa)
  if r ≠ 0 then
    socket_close b fd
    return INVALID_SOCKET
  let r ← sys (Call.listen fd MAX_CONN)
  if r ≠ 0 then
    socket_close b fd
    return INVALID_SOCKET
  let r ← set_non_blocking b fd 1
  if r ≠ 0 then
    socket_close b fd
    return INVALID_SOCKET
  return fd

/-- The function `socket_create_tcp_server` (lines 221 to 253).  The
descriptor set holds `tcp_listen` alone; the `out` value of `select` is the
membership bit `FD_ISSET` reads afterwards. -/
def socket_create_tcp_server (tcp_listen : Int) (ms_timeout : Int) : Run Int := do
  let tv_sec := Int.tdiv ms_timeout 1000
  let tv_usec := Int.tmod ms_timeout 1000 * 1000
  let sel ← sys_out (Call.select (tcp_listen + 1) tcp_listen tv_sec tv_usec)
  if sel.1 = -1 then
    return INVALID_SOCKET
  else if sel.1 = 0 then
    return INVALID_SOCKET
  else
    if sel.2 ≠ 0 then
      let s ← sys (Call.accept tcp_listen)
      if s ≠ INVALID_SOCKET ∧ s ≠ SOCKET_ERROR then
        return s
    return INVALID_SOCKET

/-- The function `socket_create_tcp_client` (lines 265 to 293). -/
def socket_create_tcp_client (b : Build) (s_server_addr : String) (server_port : Nat) :
    Run Int := do
  let sc_client ← sys (Call.socket AddrFamily.AF_INET SockType.SOCK_STREAM Protocol.IPPROTO_TCP)
  if sc_client = INVALID_SOCKET then
    printf "socket() failed!\n" []
    return INVALID_SOCKET
  let sa_server := sockaddr_in.mk AddrFamily.AF_INET (htons b server_port)
    (inet_addr b s_server_addr)
  let ret ← sys (Call.connect sc_client sa_server)
  if ret = SOCKET_ERROR then
    printf "connect() failed!\n" []
    socket_close b sc_client
    return INVALID_SOCKET
  return sc_client

/-- The function `socket_create_mc` (lines 347 to 427). -/
def socket_create_mc (b : Build) (ip_if : String) (ip_grp : String) (port : Nat) (ttl : Int) :
    Run Int := do
  if ¬ IN_MULTICAST (ntohl b (inet_addr b ip_grp)) then
    printf "invalid multi-cast address: %s\n" [PArg.s ip_grp]
    return INVALID_SOCKET
  let fd ← sys (Call.socket AddrFamily.AF_INET SockType.SOCK_DGRAM Protocol.IPPROTO_UDP)
  if fd = INVALID_SOCKET then
    printf "create datagrams socket error: %s\n" [PArg.s ip_grp]
    return INVALID_SOCKET
  let r ← sys (Call.setsockopt fd Level.IPPROTO_IP OptName.IP_MULTICAST_LOOP (OptVal.char 0))
  if r ≠ 0 then
    printf "disable loop back error: %s\n" [PArg.s ip_grp]
    socket_close b fd
    return INVALID_SOCKET
  let r ← sys (Call.setsockopt fd Level.IPPROTO_IP OptName.IP_MULTICAST_TTL (OptVal.char ttl))
  if r ≠ 0 then
    printf "set time-to-live error: %s\n" [PArg.s ip_grp]
    socket_close b fd
    return INVALID_SOCKET
  let r ← sys (Call.setsockopt fd Level.IPPROTO_IP OptName.IP_MULTICAST_IF
    (OptVal.in_addr (inet_addr b ip_if)))
  if r ≠ 0 then
    printf "set interface error: %s\n" [PArg.s ip_if]
    socket_close b fd
    return INVALID_SOCKET
  let r ← set_non_blocking b fd 1
  if r ≠ 0 then
    printf "Error marking as non-blocking: %s\n" [PArg.s ip_grp]
    socket_close b fd
    return INVALID_SOCKET
  let local_addr := sockaddr_in.mk AddrFamily.AF_INET (htons b port) (htonl b INADDR_ANY)
  let r ← sys (Call.bind fd local_addr)
  if r ≠ 0 then
    printf "Error associcates a local address: %d, %d\n" [PArg.d port, PArg.d INADDR_ANY]
    socket_close b fd
    return INVALID_SOCKET
  let group_addr := sockaddr_in.mk AddrFamily.AF_INET (htons b port) (inet_addr b ip_grp)
  let r ← sys (Call.connect fd group_addr)
  if r ≠ 0 then
    printf "Error connecting multicast address: %s\n" [PArg.s ip_grp]
    socket_close b fd
    return INVALID_SOCKET
  return fd

/-- The statements on `rcvbuf_len` between the two option calls (lines 550 to
555): scale by 1024 in 32-bit arithmetic, then clamp. -/
def rcvbuf_scale_clamp (rcvbuf_len : Int) : Int :=
  let rcvbuf_len := wrap32 (rcvbuf_len * 1024)
  if rcvbuf_len < size_flush_buf_min then size_flush_buf_min
  else if rcvbuf_len > size_flush_buf_max then size_flush_buf_max
  else rcvbuf_len

/-- The part of `socket_add_mc` after the conditional compilation (lines 542
to 570), common to both platforms. -/
def socket_add_mc_rcvbuf (b : Build) (sockfd : Int) : Run Int := do
  let got ← sys_out (Call.getsockopt sockfd Level.SOL_SOCKET OptName.SO_RCVBUF)
  if got.1 < 0 then
    perror "getsockopt: "
    socket_close b sockfd
    return INVALID_SOCKET
  let rcvbuf_len := wrap32 got.2
  printf "[xsocket] the receive buf old len: %d KB\n" [PArg.d (wrap32 (rcvbuf_len + 512) >>> 10)]
  let rcvbuf_len := rcvbuf_scale_clamp rcvbuf_len
  let r ← sys (Call.setsockopt sockfd Level.SOL_SOCKET OptName.SO_RCVBUF (OptVal.int rcvbuf_len))
  if r < 0 then
    perror "setsockopt: "
    socket_close b sockfd
    return INVALID_SOCKET
  printf "[xsocket] the receive buf new len: %d KB\n" [PArg.d (wrap32 (rcvbuf_len + 512) >>> 10)]
  let r ← set_non_blocking b sockfd 1
  if r ≠ 0 then
    socket_close b sockfd
    return INVALID_SOCKET
  return sockfd

/-- The `_MSC_VER` branch of `socket_add_mc` (lines 452 to 489), followed by
the common part. -/
def socket_add_mc_msc (b : Build) (ip_if : String) (ip_grp : String) (port : Nat) :
    Run Int := do
  if ¬ IN_MULTICAST (ntohl b (inet_addr b ip_grp)) then
    printf "invalid multi-cast address: %s\n" [PArg.s ip_grp]
    return INVALID_SOCKET
  let sockfd ← sys (Call.socket AddrFamily.AF_INET SockType.SOCK_DGRAM Protocol.zero)
  if sockfd = INVALID_SOCKET then
    printf "Error creating datagrams socket: %s\n" [PArg.s ip_grp]
    return INVALID_SOCKET
  let local_addr := sockaddr_in.mk AddrFamily.AF_INET (htons b port) (inet_addr b ip_if)
  let r ← sys (Call.bind sockfd local_addr)
  if r ≠ 0 then
    printf "Error associates a local address: %s port %d\n" [PArg.s ip_if, PArg.d port]
    socket_close b sockfd
    return INVALID_SOCKET
  let mreq := OptVal.ip_mreq (inet_addr b ip_grp) (inet_addr b ip_if)
  let r ← sys (Call.setsockopt sockfd Level.IPPROTO_IP OptName.IP_ADD_MEMBERSHIP mreq)
  if r ≠ 0 then
    printf "Error set option over ip: %s port %d\n" [PArg.s ip_if, PArg.d port]
    socket_close b sockfd
    return INVALID_SOCKET
  socket_add_mc_rcvbuf b sockfd

/-- The branch of `socket_add_mc` compiled without `_MSC_VER` (lines 490 to
540), followed by the common part.  The `ret` value of `gethostbyname` is
zero for a null pointer, its `out` value the resolved address; the `out`
value of `inet_pton` is the address it stores. -/
def socket_add_mc_posix (b : Build) (ip_if : String) (ip_grp : String) (port : Nat) :
    Run Int := do
  printf "Warning: ip_if %s not supported to set on Linux, Please use \"route add -net 224.0.0.0 netmask 224.0.0.0 eth0\"(or similar)\n" [PArg.s ip_if]
  let sockfd ← sys (Call.socket AddrFamily.AF_INET SockType.SOCK_DGRAM Protocol.zero)
  if sockfd < 0 then
    printf "socket creating err in udptalk\n" []
    exit 1
  let group ← sys_out (Call.gethostbyname ip_grp)
  if group.1 = 0 then
    perror "gethostbyname"
    let e ← errno
    exit e
  let ia := group.2.toNat
  let mreq := OptVal.ip_mreq ia (htonl b INADDR_ANY)
  let r ← sys (Call.setsockopt sockfd Level.IPPROTO_IP OptName.IP_ADD_MEMBERSHIP mreq)
  if r = -1 then
    perror "setsockopt"
    exit (-1)
  let pton ← sys_out (Call.inet_pton AddrFamily.AF_INET ip_grp)
  if pton.1 < 0 then
    printf "Wrong dest IP address!\n" []
    exit 0
  let udp_mc_servaddr := sockaddr_in.mk AddrFamily.AF_INET (htons b port) pton.2.toNat
  let r ← sys (Call.bind sockfd udp_mc_servaddr)
  if r = -1 then
    printf "Bind error\n" []
    exit 0
  socket_add_mc_rcvbuf b sockfd

/-- The function `socket_add_mc` (lines 445 to 571). -/
def socket_add_mc (b : Build) (ip_if : String) (ip_grp : String) (port : Nat) : Run Int :=
  if b.MSC_VER then socket_add_mc_msc b ip_if ip_grp port
  else socket_add_mc_posix b ip_if ip_grp port

/-- The function `socket_send` (lines 584 to 588). -/
def socket_send (fd : Int) (data : List Nat) (len : Int) : Run Int :=
  sys (Call.send fd data len 0)

/-- The function `socket_recv` (lines 601 to 605). -/
def socket_recv (fd : Int) (len : Int) : Run Int :=
  sys (Call.recv fd len 0)

/-! ## `TCP.c` -/

/-- The macro `BUF_SIZE` (TCP.c, line 41). -/
def BUF_SIZE : Nat := 4096

/-- The constant `s_server_addr` (line 30). -/
def s_server_addr : String := "127.0.0.1"

/-- The constant `i_server_port` (line 31). -/
def i_server_port : Nat := 1012

/-- Number of elements of the array `char buf[BUF_SIZE]` that `snd` declares
(line 46). -/
def snd_buf_size : Nat := BUF_SIZE

/-- Number of elements of the array `char buf[BUF_SIZE + 1]` that `rcv`
declares (line 126). -/
def rcv_buf_size : Nat := BUF_SIZE + 1

/-- The assignment `buf[i] = v` on an array: `none` when the index lies outside
the array, where the behaviour of the program is undefined. -/
def array_store (buf : List Nat) (i : Int) (v : Nat) : Option (List Nat) :=
  if 0 ≤ i ∧ i < buf.length then some (buf.set i.toNat v) else none

/-- The receive part of the inner loop of `snd` (lines 72 to 80), on the array
`buf`.  The bytes `recv` stores come from the peer and are not tracked, so the
text argument of the second `printf_s` is not recorded; the result is the
array after the statements, `none` when the terminator was stored outside
it. -/
def snd_receive (client_sock : Int) (buf : List Nat) : Run (Option (List Nat)) := do
  let len ← socket_recv client_sock BUF_SIZE
  if len = 0 then
    printf "TCP serRecv[%d]: ERROR \n" [PArg.d len]
  if len > 0 then
    match array_store buf len 0 with
    | none => return none
    | some buf1 =>
      printf "TCP serRecv[%d]: \"%s\"\n" [PArg.d len]
      return some buf1
  return some buf

/-- One iteration of the loop of `rcv` (lines 135 to 144), on the socket
`tcp_socket` and the array `buf`.  The bytes `recv` stores are not tracked, as
in `snd_receive`; the result is the socket and the array after the iteration,
`none` when the terminator was stored outside the array. -/
def rcv_iteration (b : Build) (tcp_socket : Int) (buf : List Nat) :
    Run (Option (Int × List Nat)) := do
  let len ← socket_recv tcp_socket BUF_SIZE
  if len ≥ 0 then
    match array_store buf len 0 with
    | none => return none
    | some buf1 =>
      printf "TCP received[%d]: \"%s\"\n" [PArg.d len]
      return some (tcp_socket, buf1)
  else
    let s ← socket_create_tcp_client b s_server_addr i_server_port
    return some (s, buf)

/-! ## Named inputs used to exercise the embedding -/

/-- The call that closes a descriptor on the given build. -/
def closeCall (b : Build) (fd : Int) : Call :=
  if b.WIN32 then Call.closesocket fd else Call.close fd

/-- A little-endian build without `WIN32` and `_MSC_VER`. -/
def posixBuild : Build := Build.mk false false false 2048

/-- A little-endian build with `WIN32` and `_MSC_VER`. -/
def mscBuild : Build := Build.mk true true false 2048

/-- An operating system on which every primitive succeeds: `socket` and
`accept` hand out descriptor 3, `gethostbyname` a non-null pointer, `select`
one ready descriptor, `getsockopt` reports 212992 bytes, everything else
returns zero. -/
def osAllSucceed : Os :=
  Os.mk
    (fun _ c =>
      match c with
      | Call.socket _ _ _ => 3
      | Call.accept _ => 4
      | Call.gethostbyname _ => 1
      | Call.select _ _ _ _ => 1
      | Call.inet_pton _ _ => 1
      | _ => 0)
    (fun _ c =>
      match c with
      | Call.getsockopt _ _ _ => 212992
      | Call.select _ _ _ _ => 1
      | _ => 0)
    (fun _ => 0)

/-- An operating system that refuses the request to join a group and lets
every other primitive succeed, as `osAllSucceed` does. -/
def osRejectJoin : Os :=
  Os.mk
    (fun tr c =>
      match c with
      | Call.setsockopt _ Level.IPPROTO_IP OptName.IP_ADD_MEMBERSHIP _ => -1
      | _ => osAllSucceed.ret tr c)
    osAllSucceed.out
    (fun _ => 22)

/-- An operating system on which `connect` fails and every other primitive
succeeds, as `osAllSucceed` does. -/
def osConnectRefused : Os :=
  Os.mk
    (fun tr c =>
      match c with
      | Call.connect _ _ => -1
      | _ => osAllSucceed.ret tr c)
    osAllSucceed.out
    (fun _ => 111)

/-- An operating system on which `recv` fills the whole capacity of 4096
bytes and every other primitive succeeds, as `osAllSucceed` does. -/
def osRecvFull : Os :=
  Os.mk
    (fun tr c =>
      match c with
      | Call.recv _ _ _ => 4096
      | _ => osAllSucceed.ret tr c)
    osAllSucceed.out
    (fun _ => 0)

/-- An operating system on which `listen` fails and every other primitive
succeeds, as `osAllSucceed` does. -/
def osListenFails : Os :=
  Os.mk
    (fun tr c =>
      match c with
      | Call.listen _ _ => -1
      | _ => osAllSucceed.ret tr c)
    osAllSucceed.out
    (fun _ => 98)

/-- An operating system on which every primitive reports failure. -/
def osAllFail : Os := Os.mk (fun _ _ => -1) (fun _ _ => 0) (fun _ => 24)

/-! ## Predicates on calls and runs -/

/-- A program only ever appends to the history. -/
def Run.Extends {α : Type} (m : Run α) : Prop := ∀ os tr, ∃ ext, (m os tr).2 = tr ++ ext

def Call.isSocket : Call → Bool
  | Call.socket _ _ _ => true
  | _ => false

def Call.isBind : Call → Bool
  | Call.bind _ _ => true
  | _ => false

def Call.isListen : Call → Bool
  | Call.listen _ _ => true
  | _ => false

def Call.isGetsockopt : Call → Bool
  | Call.getsockopt _ _ _ => true
  | _ => false

/-- An option-setting call on `SO_RCVBUF`. -/
def Call.isRcvbufSet : Call → Bool
  | Call.setsockopt _ Level.SOL_SOCKET OptName.SO_RCVBUF _ => true
  | _ => false

/-! ## Theorems -/

/-! ### The monad of runs -/

theorem run_bind_value {α β : Type} (m : Run α) (f : α → Run β) (os : Os) (tr tr1 : Trace)
    (a : α) (h : m os tr = (Outcome.value a, tr1)) : (m >>= f) os tr = f a os tr1 := by
  show Run.bind m f os tr = _
  simp [Run.bind, h]

@[simp] theorem run_pure_apply {α : Type} (a : α) (os : Os) (tr : Trace) :
    (pure a : Run α) os tr = (Outcome.value a, tr) := rfl

@[simp] theorem run_ite_apply {α : Type} (c : Prop) [Decidable c] (m1 m2 : Run α) (os : Os)
    (tr : Trace) : (if c then m1 else m2) os tr = if c then m1 os tr else m2 os tr := by
  split <;> rfl

@[simp] theorem run_bind_pure {α β : Type} (a : α) (f : α → Run β) (os : Os) (tr : Trace) :
    ((pure a : Run α) >>= f) os tr = f a os tr := rfl

@[simp] theorem run_bind_sys {β : Type} (c : Call) (f : Int → Run β) (os : Os) (tr : Trace) :
    (sys c >>= f) os tr = f (os.ret tr c) os (tr ++ [c]) := rfl

@[simp] theorem run_bind_sys_out {β : Type} (c : Call) (f : Int × Int → Run β) (os : Os)
    (tr : Trace) : (sys_out c >>= f) os tr = f (os.ret tr c, os.out tr c) os (tr ++ [c]) := rfl

@[simp] theorem run_bind_sys_void {β : Type} (c : Call) (f : Unit → Run β) (os : Os)
    (tr : Trace) : (sys_void c >>= f) os tr = f () os (tr ++ [c]) := rfl

@[simp] theorem run_bind_printf {β : Type} (fmt : String) (args : List PArg) (f : Unit → Run β)
    (os : Os) (tr : Trace) :
    (printf fmt args >>= f) os tr = f () os (tr ++ [Call.printf fmt args]) := rfl

@[simp] theorem run_bind_perror {β : Type} (s : String) (f : Unit → Run β) (os : Os)
    (tr : Trace) : (perror s >>= f) os tr = f () os (tr ++ [Call.perror s]) := rfl

@[simp] theorem run_bind_errno {β : Type} (f : Int → Run β) (os : Os) (tr : Trace) :
    (errno >>= f) os tr = f (os.errno tr) os tr := rfl

@[simp] theorem run_bind_exit {α β : Type} (st : Int) (f : α → Run β) (os : Os) (tr : Trace) :
    ((exit st : Run α) >>= f) os tr = (Outcome.exited st, tr) := rfl

@[simp] theorem run_exit_apply {α : Type} (st : Int) (os : Os) (tr : Trace) :
    (exit st : Run α) os tr = (Outcome.exited st, tr) := rfl

@[simp] theorem run_bind_socket_close {β : Type} (b : Build) (fd : Int) (f : Unit → Run β)
    (os : Os) (tr : Trace) :
    (socket_close b fd >>= f) os tr = f () os (tr ++ [closeCall b fd]) := by
  unfold socket_close closeCall
  split <;> rfl

@[simp] theorem run_bind_ite {α β : Type} (c : Prop) [Decidable c] (m1 m2 : Run α)
    (f : α → Run β) : ((if c then m1 else m2) >>= f) = if c then m1 >>= f else m2 >>= f := by
  split <;> rfl

/-! ### `set_non_blocking` and `socket_close` -/

theorem set_non_blocking_run (b : Build) (fd on_ : Int) (os : Os) (tr : Trace) :
    set_non_blocking b fd on_ os tr =
      if b.WIN32 = true then
        (Outcome.value (if os.ret tr (Call.ioctlsocket_FIONBIO fd on_) = SOCKET_ERROR then -1 else 0),
          tr ++ [Call.ioctlsocket_FIONBIO fd on_])
      else if os.ret tr (Call.fcntl fd FcntlCmd.F_GETFL 0) < 0 then
        (Outcome.value (-1), tr ++ [Call.fcntl fd FcntlCmd.F_GETFL 0])
      else
        let flags := if on_ ≠ 0 then Int.lor (os.ret tr (Call.fcntl fd FcntlCmd.F_GETFL 0)) b.O_NONBLOCK
          else Int.land (os.ret tr (Call.fcntl fd FcntlCmd.F_GETFL 0)) (Int.lnot b.O_NONBLOCK)
        (Outcome.value (if os.ret (tr ++ [Call.fcntl fd FcntlCmd.F_GETFL 0])
            (Call.fcntl fd FcntlCmd.F_SETFL flags) < 0 then -1 else 0),
          tr ++ [Call.fcntl fd FcntlCmd.F_GETFL 0, Call.fcntl fd FcntlCmd.F_SETFL flags]) := by
  simp only [set_non_blocking, run_ite_apply, run_bind_sys, run_bind_ite, run_bind_pure, run_pure_apply]
  split_ifs <;> simp

theorem run_bind_set_non_blocking {β : Type} (b : Build) (fd on_ : Int) (f : Int → Run β)
    (os : Os) (tr : Trace) :
    (set_non_blocking b fd on_ >>= f) os tr =
      if b.WIN32 = true then
        f (if os.ret tr (Call.ioctlsocket_FIONBIO fd on_) = SOCKET_ERROR then -1 else 0) os
          (tr ++ [Call.ioctlsocket_FIONBIO fd on_])
      else if os.ret tr (Call.fcntl fd FcntlCmd.F_GETFL 0) < 0 then
        f (-1) os (tr ++ [Call.fcntl fd FcntlCmd.F_GETFL 0])
      else
        let flags := if on_ ≠ 0 then Int.lor (os.ret tr (Call.fcntl fd FcntlCmd.F_GETFL 0)) b.O_NONBLOCK
          else Int.land (os.ret tr (Call.fcntl fd FcntlCmd.F_GETFL 0)) (Int.lnot b.O_NONBLOCK)
        f (if os.ret (tr ++ [Call.fcntl fd FcntlCmd.F_GETFL 0])
            (Call.fcntl fd FcntlCmd.F_SETFL flags) < 0 then -1 else 0) os
          (tr ++ [Call.fcntl fd FcntlCmd.F_GETFL 0, Call.fcntl fd FcntlCmd.F_SETFL flags]) := by
  have h := set_non_blocking_run b fd on_ os tr
  split_ifs at h ⊢ <;> exact run_bind_value _ _ _ _ _ _ h

/-- The function `set_non_blocking` always returns to its caller, and the calls
it adds to the history are `ioctlsocket` and `fcntl` calls only. -/
theorem set_non_blocking_returns (b : Build) (fd on_ : Int) (os : Os) (tr : Trace) :
    ∃ r ext, set_non_blocking b fd on_ os tr = (Outcome.value r, tr ++ ext)
      ∧ ∀ c ∈ ext, (∃ a, c = Call.ioctlsocket_FIONBIO fd a) ∨ (∃ cmd a, c = Call.fcntl fd cmd a) := by
  rw [set_non_blocking_run]
  by_cases hw : b.WIN32 = true
  · rw [if_pos hw]
    exact ⟨_, _, rfl, by simp⟩
  · rw [if_neg hw]
    by_cases hf : os.ret tr (Call.fcntl fd FcntlCmd.F_GETFL 0) < 0
    · rw [if_pos hf]
      exact ⟨_, _, rfl, by simp⟩
    · rw [if_neg hf]
      exact ⟨_, _, rfl, by simp⟩

theorem closeCall_not_socket (b : Build) (x : Int) : (closeCall b x).isSocket = false := by
  unfold closeCall; split <;> rfl

theorem closeCall_not_bind (b : Build) (x : Int) : (closeCall b x).isBind = false := by
  unfold closeCall; split <;> rfl

theorem closeCall_not_listen (b : Build) (x : Int) : (closeCall b x).isListen = false := by
  unfold closeCall; split <;> rfl

theorem closeCall_not_getsockopt (b : Build) (x : Int) :
    (closeCall b x).isGetsockopt = false := by
  unfold closeCall; split <;> rfl

theorem closeCall_not_rcvbufSet (b : Build) (x : Int) : (closeCall b x).isRcvbufSet = false := by
  unfold closeCall; split <;> rfl

theorem setsockopt_ne_closeCall (b : Build) (x fd : Int) (l : Level) (o : OptName) (v : OptVal) :
    (Call.setsockopt fd l o v = closeCall b x) = False := by
  unfold closeCall; split <;> simp

/-- The closing call is not among the calls a run of `set_non_blocking` adds. -/
theorem closeCall_not_mem_set_non_blocking (b : Build) (fd on_ : Int) (os : Os) (tr h5 : Trace)
    (r : Int) (x : Int) (h : set_non_blocking b fd on_ os tr = (Outcome.value r, h5))
    (hx : closeCall b x ∉ tr) : closeCall b x ∉ h5 := by
  obtain ⟨r1, ext, he, hext⟩ := set_non_blocking_returns b fd on_ os tr
  rw [he] at h
  simp only [Prod.mk.injEq] at h
  rw [← h.2]
  intro hm
  rcases List.mem_append.mp hm with hm | hm
  · exact hx hm
  · rcases hext _ hm with ⟨a, e⟩ | ⟨cmd, a, e⟩ <;>
      · unfold closeCall at e
        split at e <;> cases e

/-! ### Runs only append to the history -/

theorem extends_pure {α : Type} (a : α) : (pure a : Run α).Extends :=
  fun _ tr => ⟨[], (List.append_nil tr).symm⟩

theorem extends_sys (c : Call) : (sys c).Extends := fun _ _ => ⟨[c], rfl⟩

theorem extends_sys_out (c : Call) : (sys_out c).Extends := fun _ _ => ⟨[c], rfl⟩

theorem extends_sys_void (c : Call) : (sys_void c).Extends := fun _ _ => ⟨[c], rfl⟩

theorem extends_printf (fmt : String) (args : List PArg) : (printf fmt args).Extends :=
  fun _ _ => ⟨[_], rfl⟩

theorem extends_perror (s : String) : (perror s).Extends := fun _ _ => ⟨[_], rfl⟩

theorem extends_exit {α : Type} (st : Int) : (exit st : Run α).Extends :=
  fun _ tr => ⟨[], (List.append_nil tr).symm⟩

theorem extends_errno : errno.Extends := fun _ tr => ⟨[], (List.append_nil tr).symm⟩

theorem extends_socket_close (b : Build) (fd : Int) : (socket_close b fd).Extends := by
  unfold socket_close
  split
  · exact extends_sys_void _
  · exact extends_sys_void _

theorem extends_set_non_blocking (b : Build) (fd on_ : Int) :
    (set_non_blocking b fd on_).Extends := by
  intro os tr
  obtain ⟨r, ext, he, _⟩ := set_non_blocking_returns b fd on_ os tr
  exact ⟨ext, by rw [he]⟩

theorem extends_bind {α β : Type} (m : Run α) (f : α → Run β) (hm : m.Extends)
    (hf : ∀ a, (f a).Extends) : (m >>= f).Extends := by
  intro os tr
  show ∃ ext, (Run.bind m f os tr).2 = tr ++ ext
  obtain ⟨e1, h1⟩ := hm os tr
  unfold Run.bind
  cases hr : m os tr with
  | mk o tr1 =>
    rw [hr] at h1
    simp only at h1
    cases o with
    | value a =>
      obtain ⟨e2, h2⟩ := hf a os tr1
      subst h1
      exact ⟨e1 ++ e2, by simp only [h2, List.append_assoc]⟩
    | exited st => exact ⟨e1, h1⟩

theorem extends_ite {α : Type} (c : Prop) [Decidable c] (m1 m2 : Run α) (h1 : m1.Extends)
    (h2 : m2.Extends) : (if c then m1 else m2).Extends := by
  split
  · exact h1
  · exact h2

theorem head_of_bind_sys {β : Type} (c : Call) (f : Int → Run β) (hf : ∀ a, (f a).Extends)
    (os : Os) : ((sys c >>= f) os []).2.head? = some c := by
  rw [run_bind_sys]
  obtain ⟨ext, he⟩ := hf (os.ret [] c) os ([] ++ [c])
  rw [he]
  rfl

/-! ### Byte order and the multicast test -/

theorem bswap32_lt (x : Nat) : bswap32 x < 4294967296 := by
  unfold bswap32; omega

theorem bswap32_bswap32 (x : Nat) (h : x < 4294967296) : bswap32 (bswap32 x) = x := by
  have e : ∀ a b c d : Nat, a < 256 → b < 256 → c < 256 → d < 256 →
      bswap32 (a * 16777216 + b * 65536 + c * 256 + d)
        = d * 16777216 + c * 65536 + b * 256 + a := by
    intro a b c d ha hb hc hd
    unfold bswap32
    omega
  have hb : bswap32 x = (x % 256) * 16777216 + (x / 256 % 256) * 65536
      + (x / 65536 % 256) * 256 + (x / 16777216 % 256) := rfl
  rw [hb, e _ _ _ _ (Nat.mod_lt _ (by norm_num)) (Nat.mod_lt _ (by norm_num))
    (Nat.mod_lt _ (by norm_num)) (Nat.mod_lt _ (by norm_num))]
  have d1 : x / 256 / 256 = x / 65536 := by rw [Nat.div_div_eq_div_mul]
  have d2 : x / 65536 / 256 = x / 16777216 := by rw [Nat.div_div_eq_div_mul]
  omega

theorem ntohl_lt (b : Build) (x : Nat) : ntohl b x < 4294967296 := by
  unfold ntohl
  split
  · exact Nat.mod_lt _ (by norm_num)
  · exact bswap32_lt x

theorem ntohl_htonl (b : Build) (x : Nat) (h : x < 4294967296) : ntohl b (htonl b x) = x := by
  unfold ntohl htonl
  split
  · rw [Nat.mod_mod, Nat.mod_eq_of_lt h]
  · exact bswap32_bswap32 x h

theorem land_class_mask (x : Nat) :
    x &&& 0xf0000000 = (x / 268435456 % 16) * 268435456 := by
  have h1 : (0xf0000000 : Nat) = (2 ^ 4 - 1) <<< 28 := by decide
  have h2 : (x / 268435456 % 16) * 268435456 = ((x >>> 28) % 2 ^ 4) <<< 28 := by
    rw [Nat.shiftRight_eq_div_pow, Nat.shiftLeft_eq]; norm_num
  rw [h1, h2]
  apply Nat.eq_of_testBit_eq
  intro i
  simp only [Nat.testBit_and, Nat.testBit_shiftLeft, Nat.testBit_two_pow_sub_one,
    Nat.testBit_mod_two_pow, Nat.testBit_shiftRight]
  by_cases hi : 28 ≤ i
  · have e : 28 + (i - 28) = i := by omega
    simp [hi, e, Bool.and_comm]
  · simp [hi]

theorem IN_MULTICAST_iff (x : Nat) (h : x < 4294967296) :
    IN_MULTICAST x = true ↔ 0xe0000000 ≤ x ∧ x ≤ 0xefffffff := by
  unfold IN_MULTICAST
  rw [Nat.mod_eq_of_lt h, land_class_mask]
  simp
  omega

/-! ### Reading a dotted-decimal literal -/

theorem strtoul0_octet_dot (a : Nat) (ha : a < 256) (rest : List Char) :
    strtoul0 ((toString a).data ++ '.' :: rest) = (a, '.' :: rest) := by
  interval_cases a <;> rfl

theorem strtoul0_octet_end (a : Nat) (ha : a < 256) :
    strtoul0 (toString a).data = (a, []) := by
  interval_cases a <;> rfl

theorem octet_head (a : Nat) (ha : a < 256) :
    ∃ c tl, (toString a).data = c :: tl ∧ '0' ≤ c ∧ c ≤ '9' := by
  interval_cases a <;> exact ⟨_, _, rfl, by decide, by decide⟩

theorem inet_aton_loop_dot (n a : Nat) (ha : a < 256) (rest : List Char) (bytes : List Nat) :
    inet_aton_loop (n + 1) ((toString a).data ++ '.' :: rest) bytes
      = inet_aton_loop n rest (bytes ++ [a]) := by
  obtain ⟨c, tl, hc, h0, h9⟩ := octet_head a ha
  have h := strtoul0_octet_dot a ha rest
  have g1 : ¬ 4294967295 < a := by omega
  have g2 : ¬ 255 < a := by omega
  rw [hc] at h ⊢
  rw [List.cons_append] at h ⊢
  rw [inet_aton_loop]
  simp only [h, h0, h9]
  simp [g1, g2]

theorem inet_aton_loop_end (n a : Nat) (ha : a < 256) (bytes : List Nat) :
    inet_aton_loop n (toString a).data bytes
      = if a > lastPartMax bytes.length then none else some (assemble bytes a) := by
  obtain ⟨c, tl, hc, h0, h9⟩ := octet_head a ha
  have h := strtoul0_octet_end a ha
  have g1 : ¬ 4294967295 < a := by omega
  rw [hc] at h ⊢
  rw [inet_aton_loop]
  simp only [h, h0, h9]
  simp [g1]

theorem inet_aton_dotted (a0 a1 a2 a3 : Nat) (h0 : a0 < 256) (h1 : a1 < 256) (h2 : a2 < 256)
    (h3 : a3 < 256) :
    inet_aton_loop 3 (dotted a0 a1 a2 a3).data []
      = some (a0 * 16777216 + a1 * 65536 + a2 * 256 + a3) := by
  have e : (dotted a0 a1 a2 a3).data = (toString a0).data ++ '.' :: ((toString a1).data
      ++ '.' :: ((toString a2).data ++ '.' :: (toString a3).data)) := by
    simp [dotted, String.data_append]
  have g : ¬ 255 < a3 := by omega
  rw [e, inet_aton_loop_dot 2 a0 h0, inet_aton_loop_dot 1 a1 h1, inet_aton_loop_dot 0 a2 h2,
    inet_aton_loop_end 0 a3 h3]
  simp [lastPartMax, assemble, g]

theorem ntohl_inet_addr_dotted (b : Build) (a0 a1 a2 a3 : Nat) (h0 : a0 < 256) (h1 : a1 < 256)
    (h2 : a2 < 256) (h3 : a3 < 256) :
    ntohl b (inet_addr b (dotted a0 a1 a2 a3))
      = a0 * 16777216 + a1 * 65536 + a2 * 256 + a3 := by
  unfold inet_addr
  rw [inet_aton_dotted a0 a1 a2 a3 h0 h1 h2 h3]
  exact ntohl_htonl b _ (by omega)

/-! ### The receive buffer of `socket_add_mc` -/

theorem wrap32_range (x : Int) : -2147483648 ≤ wrap32 x ∧ wrap32 x ≤ 2147483647 := by
  unfold wrap32; omega

theorem rcvbuf_scale_clamp_range (r : Int) :
    16777216 ≤ rcvbuf_scale_clamp r ∧ rcvbuf_scale_clamp r ≤ 134217728 := by
  unfold rcvbuf_scale_clamp size_flush_buf_min size_flush_buf_max
  simp only []
  split_ifs <;> omega

/-- A list that splits around an element satisfying `p`, with no other such
element, splits in one way only. -/
theorem split_unique {α : Type} (p : α → Bool) (l1 l2 pre post : List α) (a c : α)
    (hl1 : ∀ x ∈ l1, p x = false) (hl2 : ∀ x ∈ l2, p x = false) (hc : p c = true)
    (h : l1 ++ a :: l2 = pre ++ c :: post) : pre = l1 ∧ c = a ∧ post = l2 := by
  induction l1 generalizing pre with
  | nil =>
    cases pre with
    | nil =>
      simp only [List.nil_append, List.cons.injEq] at h
      exact ⟨rfl, h.1.symm, h.2.symm⟩
    | cons x pre1 =>
      simp only [List.nil_append, List.cons_append, List.cons.injEq] at h
      have hm : c ∈ l2 := by rw [h.2]; simp
      have := hl2 c hm
      rw [hc] at this
      cases this
  | cons y l1 ih =>
    cases pre with
    | nil =>
      simp only [List.nil_append, List.cons_append, List.cons.injEq] at h
      have := hl1 y (by simp)
      rw [h.1, hc] at this
      cases this
    | cons x pre1 =>
      simp only [List.cons_append, List.cons.injEq] at h
      obtain ⟨e1, e2, e3⟩ := ih pre1 (fun x hx => hl1 x (List.mem_cons_of_mem _ hx)) h.2
      exact ⟨by rw [h.1, e1], e2, e3⟩

/-- In the common part, an option-setting call on `SO_RCVBUF` that was not in
the history already carries the scaled and clamped size. -/
theorem socket_add_mc_rcvbuf_calls (b : Build) (sockfd : Int) (os : Os) (tr : Trace)
    (fd : Int) (val : OptVal)
    (h : Call.setsockopt fd Level.SOL_SOCKET OptName.SO_RCVBUF val
      ∈ (socket_add_mc_rcvbuf b sockfd os tr).2) :
    Call.setsockopt fd Level.SOL_SOCKET OptName.SO_RCVBUF val ∈ tr
      ∨ (fd = sockfd ∧ val = OptVal.int (rcvbuf_scale_clamp (wrap32
            (os.out tr (Call.getsockopt sockfd Level.SOL_SOCKET OptName.SO_RCVBUF))))) := by
  simp only [socket_add_mc_rcvbuf, run_ite_apply, run_bind_sys, run_bind_sys_out, run_bind_ite,
    run_bind_pure, run_pure_apply, run_bind_socket_close, run_bind_set_non_blocking,
    run_bind_perror, run_bind_printf] at h
  split_ifs at h <;> simp [setsockopt_ne_closeCall] at h <;> tauto

/-- The common part, from any history: the history is extended by the
`getsockopt` call and then by calls none of which is a `getsockopt`; when the
`getsockopt` succeeded, the option-setting call with the scaled and clamped
size is among them. -/
theorem socket_add_mc_rcvbuf_trace (b : Build) (sockfd : Int) (os : Os) (tr : Trace) :
    ∃ rest, (socket_add_mc_rcvbuf b sockfd os tr).2
        = tr ++ Call.getsockopt sockfd Level.SOL_SOCKET OptName.SO_RCVBUF :: rest
      ∧ (∀ x ∈ rest, x.isGetsockopt = false)
      ∧ (0 ≤ os.ret tr (Call.getsockopt sockfd Level.SOL_SOCKET OptName.SO_RCVBUF) →
          Call.setsockopt sockfd Level.SOL_SOCKET OptName.SO_RCVBUF
            (OptVal.int (rcvbuf_scale_clamp (wrap32
              (os.out tr (Call.getsockopt sockfd Level.SOL_SOCKET OptName.SO_RCVBUF))))) ∈ rest) := by
  simp only [socket_add_mc_rcvbuf, run_ite_apply, run_bind_sys, run_bind_sys_out, run_bind_ite,
    run_bind_pure, run_pure_apply, run_bind_socket_close, run_bind_set_non_blocking,
    run_bind_perror, run_bind_printf]
  split_ifs <;>
    simp only [List.append_assoc, List.singleton_append, List.cons_append, List.nil_append] <;>
    refine ⟨_, rfl, ?_, ?_⟩ <;>
    first
    | (intro h0; omega)
    | (intro _; simp; done)
    | (simp only [List.forall_mem_cons, closeCall_not_getsockopt]
       simp [Call.isGetsockopt])

/-- Every run of `socket_add_mc` either ends before the common part, or
continues with the common part from a history that holds no `getsockopt` and
no option-setting call on `SO_RCVBUF`. -/
theorem socket_add_mc_reaches (b : Build) (os : Os) (ip_if ip_grp : String) (port : Nat) :
    ∃ l, (∀ x ∈ l, x.isGetsockopt = false ∧ x.isRcvbufSet = false)
      ∧ ((socket_add_mc b ip_if ip_grp port os []).2 = l
        ∨ ∃ sockfd, socket_add_mc b ip_if ip_grp port os [] = socket_add_mc_rcvbuf b sockfd os l) := by
  unfold socket_add_mc
  split
  · simp only [socket_add_mc_msc, run_ite_apply, run_bind_sys, run_bind_sys_out, run_bind_ite,
      run_bind_pure, run_pure_apply, run_bind_socket_close, run_bind_perror, run_bind_printf]
    split_ifs <;>
      first
      | refine ⟨_, ?_, Or.inr ⟨_, rfl⟩⟩
      | refine ⟨_, ?_, Or.inl rfl⟩
    all_goals
      simp only [List.forall_mem_append, List.forall_mem_cons, closeCall_not_getsockopt,
        closeCall_not_rcvbufSet]
      simp [Call.isGetsockopt, Call.isRcvbufSet]
  · simp only [socket_add_mc_posix, run_ite_apply, run_bind_sys, run_bind_sys_out, run_bind_ite,
      run_bind_pure, run_pure_apply, run_bind_socket_close, run_bind_perror, run_bind_printf,
      run_bind_exit, run_bind_errno, run_exit_apply]
    split_ifs <;>
      first
      | refine ⟨_, ?_, Or.inr ⟨_, rfl⟩⟩
      | refine ⟨_, ?_, Or.inl rfl⟩
    all_goals
      simp only [List.forall_mem_append, List.forall_mem_cons, closeCall_not_getsockopt,
        closeCall_not_rcvbufSet]
      simp [Call.isGetsockopt, Call.isRcvbufSet]

/-! ### Validation of the group address in `socket_create_mc` -/

theorem socket_create_mc_invalid_group (b : Build) (os : Os) (ip_if ip_grp : String) (port : Nat)
    (ttl : Int) (tr : Trace) (h : IN_MULTICAST (ntohl b (inet_addr b ip_grp)) = false) :
    socket_create_mc b ip_if ip_grp port ttl os tr
      = (Outcome.value INVALID_SOCKET,
          tr ++ [Call.printf "invalid multi-cast address: %s\n" [PArg.s ip_grp]]) := by
  simp [socket_create_mc, h]

/-- With a group that passes the multicast test, the first primitive
`socket_create_mc` invokes is the creation of the UDP socket. -/
theorem socket_create_mc_valid_group_starts (b : Build) (os : Os) (ip_if ip_grp : String)
    (port : Nat) (ttl : Int) (h : IN_MULTICAST (ntohl b (inet_addr b ip_grp)) = true) :
    (socket_create_mc b ip_if ip_grp port ttl os []).2.head?
      = some (Call.socket AddrFamily.AF_INET SockType.SOCK_DGRAM Protocol.IPPROTO_UDP) := by
  unfold socket_create_mc
  simp only [h, not_true_eq_false, if_false, run_bind_pure]
  apply head_of_bind_sys
  intro fd
  repeat' first
    | exact extends_pure _
    | exact extends_sys _
    | exact extends_printf _ _
    | exact extends_socket_close _ _
    | exact extends_set_non_blocking _ _ _
    | apply extends_ite
    | apply extends_bind
    | intro _

/-- The multicast test of `socket_create_mc` decides the run: the first
primitive is the creation of the UDP socket exactly when the test passes, and
the run is the rejection, `INVALID_SOCKET` after the diagnostic alone, exactly
when it fails. -/
theorem socket_create_mc_accepts_iff (b : Build) (os : Os) (ip_if ip_grp : String) (port : Nat)
    (ttl : Int) :
    ((socket_create_mc b ip_if ip_grp port ttl os []).2.head?
        = some (Call.socket AddrFamily.AF_INET SockType.SOCK_DGRAM Protocol.IPPROTO_UDP)
      ↔ IN_MULTICAST (ntohl b (inet_addr b ip_grp)) = true)
    ∧ (socket_create_mc b ip_if ip_grp port ttl os []
        = (Outcome.value INVALID_SOCKET,
            [Call.printf "invalid multi-cast address: %s\n" [PArg.s ip_grp]])
      ↔ IN_MULTICAST (ntohl b (inet_addr b ip_grp)) = false) := by
  cases hv : IN_MULTICAST (ntohl b (inet_addr b ip_grp))
  · have hrun := socket_create_mc_invalid_group b os ip_if ip_grp port ttl [] hv
    rw [List.nil_append] at hrun
    refine ⟨⟨fun h => ?_, fun h => by cases h⟩, ⟨fun _ => rfl, fun _ => hrun⟩⟩
    rw [hrun] at h
    simp at h
  · have hst := socket_create_mc_valid_group_starts b os ip_if ip_grp port ttl hv
    refine ⟨⟨fun _ => rfl, fun _ => hst⟩, ⟨fun h => ?_, fun h => by cases h⟩⟩
    rw [h] at hst
    simp at hst

/-! ## The claims -/

/-- C1: `socket_create_mc` accepts a group address exactly when it is in the
multicast range.  For every group string, the function goes on to create the
UDP socket if and only if the host-order address `ntohl(inet_addr(ip_grp))`
lies in 224.0.0.0 to 239.255.255.255, and otherwise its whole run is the
rejection: the diagnostic line, then `INVALID_SOCKET`.  For every
dotted-decimal literal `a0.a1.a2.a3` with octets in 0..255, written without
leading zeros, the check `IN_MULTICAST(ntohl(inet_addr(ip_grp)))` passes if and
only if `224 ≤ a0 ≤ 239`, the function creates the socket if and only if
`224 ≤ a0 ≤ 239`, and it rejects the address if and only if `a0` is outside
that range.  The group `10.0.0.1` is rejected from every history and the
group `233.1.1.101` passes the check and has the socket created. -/
theorem socket_create_mc_group_check (b : Build) (os : Os) (ip_if ip_grp : String) (port : Nat)
    (ttl : Int) (a0 a1 a2 a3 : Nat)
    (h0 : a0 < 256) (h1 : a1 < 256) (h2 : a2 < 256) (h3 : a3 < 256) :
    let sock := Call.socket AddrFamily.AF_INET SockType.SOCK_DGRAM Protocol.IPPROTO_UDP
    let lit := dotted a0 a1 a2 a3
    ((socket_create_mc b ip_if ip_grp port ttl os []).2.head? = some sock
      ↔ 0xe0000000 ≤ ntohl b (inet_addr b ip_grp) ∧ ntohl b (inet_addr b ip_grp) ≤ 0xefffffff)
    ∧ (socket_create_mc b ip_if ip_grp port ttl os []
        = (Outcome.value INVALID_SOCKET,
            [Call.printf "invalid multi-cast address: %s\n" [PArg.s ip_grp]])
      ↔ ¬ (0xe0000000 ≤ ntohl b (inet_addr b ip_grp)
        ∧ ntohl b (inet_addr b ip_grp) ≤ 0xefffffff))
    ∧ (IN_MULTICAST (ntohl b (inet_addr b lit)) = true ↔ 224 ≤ a0 ∧ a0 ≤ 239)
    ∧ ((socket_create_mc b ip_if lit port ttl os []).2.head? = some sock
      ↔ 224 ≤ a0 ∧ a0 ≤ 239)
    ∧ (socket_create_mc b ip_if lit port ttl os []
        = (Outcome.value INVALID_SOCKET,
            [Call.printf "invalid multi-cast address: %s\n" [PArg.s lit]])
      ↔ ¬ (224 ≤ a0 ∧ a0 ≤ 239))
    ∧ (∀ tr : Trace, socket_create_mc b ip_if "10.0.0.1" port ttl os tr
        = (Outcome.value INVALID_SOCKET,
            tr ++ [Call.printf "invalid multi-cast address: %s\n" [PArg.s "10.0.0.1"]]))
    ∧ IN_MULTICAST (ntohl b (inet_addr b "233.1.1.101")) = true
    ∧ (socket_create_mc b ip_if "233.1.1.101" port ttl os []).2.head? = some sock := by
  intro sock lit
  have hlit : IN_MULTICAST (ntohl b (inet_addr b lit)) = true ↔ 224 ≤ a0 ∧ a0 ≤ 239 := by
    simp only [lit]
    rw [ntohl_inet_addr_dotted b a0 a1 a2 a3 h0 h1 h2 h3, IN_MULTICAST_iff _ (by omega)]
    omega
  have hrange := IN_MULTICAST_iff (ntohl b (inet_addr b ip_grp)) (ntohl_lt b _)
  have e233 : ("233.1.1.101" : String) = dotted 233 1 1 101 := by decide
  have h233 : IN_MULTICAST (ntohl b (inet_addr b "233.1.1.101")) = true := by
    rw [e233, ntohl_inet_addr_dotted b 233 1 1 101 (by norm_num) (by norm_num) (by norm_num)
      (by norm_num)]
    decide
  have e10 : ("10.0.0.1" : String) = dotted 10 0 0 1 := by decide
  have h10 : IN_MULTICAST (ntohl b (inet_addr b "10.0.0.1")) = false := by
    rw [e10, ntohl_inet_addr_dotted b 10 0 0 1 (by norm_num) (by norm_num) (by norm_num)
      (by norm_num)]
    decide
  have hg := socket_create_mc_accepts_iff b os ip_if ip_grp port ttl
  have hl := socket_create_mc_accepts_iff b os ip_if lit port ttl
  refine ⟨hg.1.trans hrange, ?_, hlit, hl.1.trans hlit, ?_, ?_, h233,
    socket_create_mc_valid_group_starts b os ip_if "233.1.1.101" port ttl h233⟩
  · rw [hg.2, ← hrange]
    simp
  · rw [hl.2, ← hlit]
    simp
  · intro tr
    exact socket_create_mc_invalid_group b os ip_if "10.0.0.1" port ttl tr h10

theorem socket_create_mc_group_check_witness :
    (233 < 256 ∧ 1 < 256 ∧ 1 < 256 ∧ 101 < 256)
    ∧ ((socket_create_mc posixBuild "127.0.0.1" (dotted 233 1 1 101) 1105 2 osAllSucceed []).2.head?
        = some (Call.socket AddrFamily.AF_INET SockType.SOCK_DGRAM Protocol.IPPROTO_UDP)
      ↔ 224 ≤ 233 ∧ 233 ≤ 239)
    ∧ (socket_create_mc posixBuild "127.0.0.1" "10.0.0.1" 1105 2 osAllSucceed []
        = (Outcome.value INVALID_SOCKET,
            [Call.printf "invalid multi-cast address: %s\n" [PArg.s "10.0.0.1"]])
      ↔ ¬ (0xe0000000 ≤ ntohl posixBuild (inet_addr posixBuild "10.0.0.1")
        ∧ ntohl posixBuild (inet_addr posixBuild "10.0.0.1") ≤ 0xefffffff)) :=
  ⟨by decide,
    (socket_create_mc_group_check posixBuild osAllSucceed "127.0.0.1" "10.0.0.1" 1105 2
      233 1 1 101 (by decide) (by decide) (by decide) (by decide)).2.2.2.1,
    (socket_create_mc_group_check posixBuild osAllSucceed "127.0.0.1" "10.0.0.1" 1105 2
      233 1 1 101 (by decide) (by decide) (by decide) (by decide)).2.1⟩

/-- C2, as the spec states it, fails: on the `_MSC_VER` build, with every
primitive succeeding and a reported receive buffer of 212992 bytes, which is
below 16 MiB, the size applied with `SO_RCVBUF` is 134217728 and not
16777216. -/
theorem socket_add_mc_rcvbuf_unscaled_fails :
    (socket_add_mc mscBuild "127.0.0.1" "233.1.1.101" 1105 osAllSucceed []).2
      = [Call.socket AddrFamily.AF_INET SockType.SOCK_DGRAM Protocol.zero,
          Call.bind 3 (sockaddr_in.mk AddrFamily.AF_INET 20740 16777343),
          Call.setsockopt 3 Level.IPPROTO_IP OptName.IP_ADD_MEMBERSHIP
            (OptVal.ip_mreq 1694564841 16777343),
          Call.getsockopt 3 Level.SOL_SOCKET OptName.SO_RCVBUF,
          Call.printf "[xsocket] the receive buf old len: %d KB\n" [PArg.d 208],
          Call.setsockopt 3 Level.SOL_SOCKET OptName.SO_RCVBUF (OptVal.int 134217728),
          Call.printf "[xsocket] the receive buf new len: %d KB\n" [PArg.d 131072],
          Call.ioctlsocket_FIONBIO 3 1]
    ∧ osAllSucceed.out
        [Call.socket AddrFamily.AF_INET SockType.SOCK_DGRAM Protocol.zero,
          Call.bind 3 (sockaddr_in.mk AddrFamily.AF_INET 20740 16777343),
          Call.setsockopt 3 Level.IPPROTO_IP OptName.IP_ADD_MEMBERSHIP
            (OptVal.ip_mreq 1694564841 16777343)]
        (Call.getsockopt 3 Level.SOL_SOCKET OptName.SO_RCVBUF) = 212992
    ∧ (212992 : Int) < 16777216
    ∧ (134217728 : Int) ≠ 16777216 := by
  refine ⟨by decide, by decide, by decide, by decide⟩

/-- C2, amended: the size applied with `SO_RCVBUF` is the clamp of the observed
size times 1024.  Whenever the run of `socket_add_mc` reaches the `getsockopt`
call and that call succeeds, with `r` the size it reports and `s` the product
`r * 1024` in 32-bit arithmetic, an option-setting call on `SO_RCVBUF` follows
whose size is 16 MiB when `s` is below 16 MiB, 128 MiB when `s` is above
128 MiB, and `s` itself when `s` lies within the two bounds. -/
theorem socket_add_mc_rcvbuf_applied (b : Build) (os : Os) (ip_if ip_grp : String) (port : Nat)
    (pre post : Trace) (fd : Int)
    (hsplit : (socket_add_mc b ip_if ip_grp port os []).2
      = pre ++ Call.getsockopt fd Level.SOL_SOCKET OptName.SO_RCVBUF :: post)
    (hok : 0 ≤ os.ret pre (Call.getsockopt fd Level.SOL_SOCKET OptName.SO_RCVBUF)) :
    let r := wrap32 (os.out pre (Call.getsockopt fd Level.SOL_SOCKET OptName.SO_RCVBUF))
    let s := wrap32 (r * 1024)
    ∃ v, Call.setsockopt fd Level.SOL_SOCKET OptName.SO_RCVBUF (OptVal.int v) ∈ post
      ∧ (s < 16777216 → v = 16777216)
      ∧ (134217728 < s → v = 134217728)
      ∧ (16777216 ≤ s ∧ s ≤ 134217728 → v = s) := by
  intro r s
  obtain ⟨l, hl, hrun⟩ := socket_add_mc_reaches b os ip_if ip_grp port
  rcases hrun with hrun | ⟨sockfd, hrun⟩
  · rw [hrun] at hsplit
    have := (hl (Call.getsockopt fd Level.SOL_SOCKET OptName.SO_RCVBUF)
      (by rw [hsplit]; simp)).1
    simp [Call.isGetsockopt] at this
  · obtain ⟨rest, htr, hrest, hset⟩ := socket_add_mc_rcvbuf_trace b sockfd os l
    rw [hrun, htr] at hsplit
    obtain ⟨e1, e2, e3⟩ := split_unique Call.isGetsockopt l rest pre post
      (Call.getsockopt sockfd Level.SOL_SOCKET OptName.SO_RCVBUF)
      (Call.getsockopt fd Level.SOL_SOCKET OptName.SO_RCVBUF)
      (fun x hx => (hl x hx).1) hrest rfl hsplit
    simp only [Call.getsockopt.injEq, and_true] at e2
    subst e1 e2 e3
    refine ⟨_, hset hok, ?_, ?_, ?_⟩ <;>
      simp only [rcvbuf_scale_clamp, size_flush_buf_min, size_flush_buf_max, r, s] <;>
      intro hs <;> split_ifs <;> omega

theorem socket_add_mc_rcvbuf_applied_witness :
    ∃ v, Call.setsockopt 3 Level.SOL_SOCKET OptName.SO_RCVBUF (OptVal.int v)
        ∈ [Call.printf "[xsocket] the receive buf old len: %d KB\n" [PArg.d 208],
            Call.setsockopt 3 Level.SOL_SOCKET OptName.SO_RCVBUF (OptVal.int 134217728),
            Call.printf "[xsocket] the receive buf new len: %d KB\n" [PArg.d 131072],
            Call.ioctlsocket_FIONBIO 3 1]
      ∧ (wrap32 (wrap32 212992 * 1024) < 16777216 → v = 16777216)
      ∧ (134217728 < wrap32 (wrap32 212992 * 1024) → v = 134217728)
      ∧ (16777216 ≤ wrap32 (wrap32 212992 * 1024) ∧ wrap32 (wrap32 212992 * 1024) ≤ 134217728
          → v = wrap32 (wrap32 212992 * 1024)) :=
  socket_add_mc_rcvbuf_applied mscBuild osAllSucceed "127.0.0.1" "233.1.1.101" 1105
    [Call.socket AddrFamily.AF_INET SockType.SOCK_DGRAM Protocol.zero,
      Call.bind 3 (sockaddr_in.mk AddrFamily.AF_INET 20740 16777343),
      Call.setsockopt 3 Level.IPPROTO_IP OptName.IP_ADD_MEMBERSHIP
        (OptVal.ip_mreq 1694564841 16777343)]
    [Call.printf "[xsocket] the receive buf old len: %d KB\n" [PArg.d 208],
      Call.setsockopt 3 Level.SOL_SOCKET OptName.SO_RCVBUF (OptVal.int 134217728),
      Call.printf "[xsocket] the receive buf new len: %d KB\n" [PArg.d 131072],
      Call.ioctlsocket_FIONBIO 3 1]
    3 (by decide) (by decide)

/-- C3: every size `socket_add_mc` passes to `setsockopt` for `SO_RCVBUF` lies
in the closed range from 16 MiB to 128 MiB, whatever 32-bit size was observed,
the multiplication by 1024 being taken modulo 2^32. -/
theorem socket_add_mc_rcvbuf_in_range (b : Build) (os : Os) (ip_if ip_grp : String) (port : Nat)
    (fd : Int) (val : OptVal)
    (h : Call.setsockopt fd Level.SOL_SOCKET OptName.SO_RCVBUF val
      ∈ (socket_add_mc b ip_if ip_grp port os []).2) :
    ∃ v, val = OptVal.int v ∧ 16777216 ≤ v ∧ v ≤ 134217728 := by
  obtain ⟨l, hl, hrun⟩ := socket_add_mc_reaches b os ip_if ip_grp port
  have hnot : Call.setsockopt fd Level.SOL_SOCKET OptName.SO_RCVBUF val ∉ l := by
    intro hm
    have := (hl _ hm).2
    simp [Call.isRcvbufSet] at this
  rcases hrun with hrun | ⟨sockfd, hrun⟩
  · rw [hrun] at h
    exact absurd h hnot
  · rw [hrun] at h
    rcases socket_add_mc_rcvbuf_calls b sockfd os l fd val h with h1 | ⟨_, h2⟩
    · exact absurd h1 hnot
    · exact ⟨_, h2, rcvbuf_scale_clamp_range _⟩

theorem socket_add_mc_rcvbuf_in_range_witness :
    Call.setsockopt 3 Level.SOL_SOCKET OptName.SO_RCVBUF (OptVal.int 134217728)
        ∈ (socket_add_mc posixBuild "127.0.0.1" "233.1.1.101" 1105 osAllSucceed []).2
    ∧ ∃ v, OptVal.int 134217728 = OptVal.int v ∧ 16777216 ≤ v ∧ v ≤ 134217728 :=
  ⟨by decide,
    socket_add_mc_rcvbuf_in_range posixBuild osAllSucceed "127.0.0.1" "233.1.1.101" 1105 3
      (OptVal.int 134217728) (by decide)⟩

/-- C4: an invalid multicast address is rejected before any socket is created.
For every group address whose host-order value lies outside 224.0.0.0 to
239.255.255.255, `socket_create_mc` returns `INVALID_SOCKET` and the only
primitive it invokes is the `printf` of the diagnostic: no socket creation,
option setting, bind, connect or close. -/
theorem socket_create_mc_rejects_before_socket (b : Build) (os : Os) (ip_if ip_grp : String)
    (port : Nat) (ttl : Int) (tr : Trace)
    (h : ¬ (0xe0000000 ≤ ntohl b (inet_addr b ip_grp)
      ∧ ntohl b (inet_addr b ip_grp) ≤ 0xefffffff)) :
    socket_create_mc b ip_if ip_grp port ttl os tr
      = (Outcome.value INVALID_SOCKET,
          tr ++ [Call.printf "invalid multi-cast address: %s\n" [PArg.s ip_grp]]) := by
  apply socket_create_mc_invalid_group
  rw [← IN_MULTICAST_iff _ (ntohl_lt b _)] at h
  simpa using h

theorem socket_create_mc_rejects_before_socket_witness :
    ¬ (0xe0000000 ≤ ntohl posixBuild (inet_addr posixBuild "10.0.0.1")
      ∧ ntohl posixBuild (inet_addr posixBuild "10.0.0.1") ≤ 0xefffffff)
    ∧ socket_create_mc posixBuild "127.0.0.1" "10.0.0.1" 1105 2 osAllSucceed []
      = (Outcome.value INVALID_SOCKET,
          [] ++ [Call.printf "invalid multi-cast address: %s\n" [PArg.s "10.0.0.1"]]) :=
  ⟨by decide,
    socket_create_mc_rejects_before_socket posixBuild osAllSucceed "127.0.0.1" "10.0.0.1" 1105 2
      [] (by decide)⟩

/-- On the build without `_MSC_VER`, every run of `socket_add_mc` starts with
the warning line followed by the creation of the UDP socket. -/
theorem socket_add_mc_posix_starts (b : Build) (os : Os) (ip_if ip_grp : String) (port : Nat) :
    ∃ rest, (socket_add_mc_posix b ip_if ip_grp port os []).2
      = Call.printf "Warning: ip_if %s not supported to set on Linux, Please use \"route add -net 224.0.0.0 netmask 224.0.0.0 eth0\"(or similar)\n" [PArg.s ip_if]
        :: Call.socket AddrFamily.AF_INET SockType.SOCK_DGRAM Protocol.zero :: rest := by
  simp only [socket_add_mc_posix, run_ite_apply, run_bind_sys, run_bind_sys_out, run_bind_ite,
    run_bind_pure, run_pure_apply, run_bind_perror, run_bind_printf, run_bind_exit,
    run_bind_errno, run_exit_apply]
  split_ifs
  · exact ⟨_, rfl⟩
  · exact ⟨_, rfl⟩
  · exact ⟨_, rfl⟩
  · exact ⟨_, rfl⟩
  · exact ⟨_, rfl⟩
  · obtain ⟨rest, hr, _⟩ := socket_add_mc_rcvbuf_trace b
      (os.ret ([] ++ [Call.printf "Warning: ip_if %s not supported to set on Linux, Please use \"route add -net 224.0.0.0 netmask 224.0.0.0 eth0\"(or similar)\n" [PArg.s ip_if]])
        (Call.socket AddrFamily.AF_INET SockType.SOCK_DGRAM Protocol.zero)) os _
    rw [hr]
    exact ⟨_, rfl⟩

/-- C5 fails on the build without `_MSC_VER`: for the group `10.0.0.1`, which
the multicast test rejects, the first primitive after the warning line is the
creation of the UDP socket, whatever the operating system answers; when every
primitive succeeds the function returns descriptor 3 instead of
`INVALID_SOCKET`, and when the operating system refuses the request to join
the group the process is terminated with `exit(-1)`, the socket having been
created. -/
theorem socket_add_mc_posix_creates_socket_unchecked :
    IN_MULTICAST (ntohl posixBuild (inet_addr posixBuild "10.0.0.1")) = false
    ∧ (∀ os : Os, ∃ rest, (socket_add_mc posixBuild "127.0.0.1" "10.0.0.1" 1105 os []).2
        = Call.printf "Warning: ip_if %s not supported to set on Linux, Please use \"route add -net 224.0.0.0 netmask 224.0.0.0 eth0\"(or similar)\n"
            [PArg.s "127.0.0.1"]
          :: Call.socket AddrFamily.AF_INET SockType.SOCK_DGRAM Protocol.zero :: rest)
    ∧ (socket_add_mc posixBuild "127.0.0.1" "10.0.0.1" 1105 osAllSucceed []).1
        = Outcome.value 3
    ∧ socket_add_mc posixBuild "127.0.0.1" "10.0.0.1" 1105 osRejectJoin []
        = (Outcome.exited (-1),
            [Call.printf "Warning: ip_if %s not supported to set on Linux, Please use \"route add -net 224.0.0.0 netmask 224.0.0.0 eth0\"(or similar)\n"
                [PArg.s "127.0.0.1"],
              Call.socket AddrFamily.AF_INET SockType.SOCK_DGRAM Protocol.zero,
              Call.gethostbyname "10.0.0.1",
              Call.setsockopt 3 Level.IPPROTO_IP OptName.IP_ADD_MEMBERSHIP (OptVal.ip_mreq 0 0),
              Call.perror "setsockopt"]) := by
  refine ⟨by decide, ?_, by decide, by decide⟩
  intro os
  exact socket_add_mc_posix_starts posixBuild os "127.0.0.1" "10.0.0.1" 1105

/-- C6: `socket_create_tcp_listen` returns `INVALID_SOCKET` whenever socket
creation, bind or listen fails, and the descriptor of the created socket when
socket creation, bind, listen and marking non-blocking all succeed; `listen`
is called with backlog 5; no run invokes socket creation, `bind` or `listen`
more than once. -/
theorem socket_create_tcp_listen_contract (b : Build) (os : Os) (s_if_ip : String) (port : Nat) :
    let sock := Call.socket AddrFamily.AF_INET SockType.SOCK_STREAM Protocol.IPPROTO_TCP
    let fd := os.ret [] sock
    let bnd := Call.bind fd (sockaddr_in.mk AddrFamily.AF_INET (htons b port) (inet_addr b s_if_ip))
    let lsn := Call.listen fd 5
    let run := socket_create_tcp_listen b s_if_ip port os []
    (fd = INVALID_SOCKET → run = (Outcome.value INVALID_SOCKET, [sock]))
    ∧ (fd ≠ INVALID_SOCKET → os.ret [sock] bnd ≠ 0 →
        run = (Outcome.value INVALID_SOCKET, [sock, bnd, closeCall b fd]))
    ∧ (fd ≠ INVALID_SOCKET → os.ret [sock] bnd = 0 → os.ret [sock, bnd] lsn ≠ 0 →
        run = (Outcome.value INVALID_SOCKET, [sock, bnd, lsn, closeCall b fd]))
    ∧ (∀ (nb : Trace), fd ≠ INVALID_SOCKET → os.ret [sock] bnd = 0 → os.ret [sock, bnd] lsn = 0 →
        set_non_blocking b fd 1 os [sock, bnd, lsn] = (Outcome.value 0, nb) →
        run = (Outcome.value fd, nb))
    ∧ (run.2.countP Call.isSocket ≤ 1 ∧ run.2.countP Call.isBind ≤ 1
        ∧ run.2.countP Call.isListen ≤ 1) := by
  intro sock fd bnd lsn run
  refine ⟨?_, ?_, ?_, ?_, ?_⟩
  · intro h
    simp only [sock, fd] at h
    simp [run, socket_create_tcp_listen, sock, h]
  · intro h hb
    simp only [sock, fd, bnd] at h hb
    simp [run, socket_create_tcp_listen, sock, fd, bnd, h, hb]
  · intro h hb hl
    simp only [sock, fd, bnd, lsn] at h hb hl
    simp [run, socket_create_tcp_listen, sock, fd, bnd, lsn, MAX_CONN, h, hb, hl]
  · intro nb h hb hl hn
    simp only [sock, fd, bnd, lsn] at h hb hl hn
    simp [run, socket_create_tcp_listen, sock, fd, bnd, lsn, MAX_CONN, h, hb, hl,
      run_bind_value _ _ _ _ _ _ hn]
  · simp only [run, socket_create_tcp_listen, run_ite_apply, run_bind_sys, run_bind_ite,
      run_bind_pure, run_pure_apply, run_bind_socket_close, run_bind_set_non_blocking]
    split_ifs <;>
      simp only [List.nil_append, List.cons_append, List.countP_cons, List.countP_nil,
        closeCall_not_socket, closeCall_not_bind, closeCall_not_listen] <;>
      simp only [Call.isSocket, Call.isBind, Call.isListen] <;> simp

theorem socket_create_tcp_listen_contract_witness :
    socket_create_tcp_listen posixBuild "127.0.0.1" 1012 osAllSucceed []
      = (Outcome.value 3,
          [Call.socket AddrFamily.AF_INET SockType.SOCK_STREAM Protocol.IPPROTO_TCP,
            Call.bind 3 (sockaddr_in.mk AddrFamily.AF_INET (htons posixBuild 1012)
              (inet_addr posixBuild "127.0.0.1")),
            Call.listen 3 5,
            Call.fcntl 3 FcntlCmd.F_GETFL 0,
            Call.fcntl 3 FcntlCmd.F_SETFL 2048]) :=
  (socket_create_tcp_listen_contract posixBuild osAllSucceed "127.0.0.1" 1012).2.2.2.1
    [Call.socket AddrFamily.AF_INET SockType.SOCK_STREAM Protocol.IPPROTO_TCP,
      Call.bind 3 (sockaddr_in.mk AddrFamily.AF_INET (htons posixBuild 1012)
        (inet_addr posixBuild "127.0.0.1")),
      Call.listen 3 5,
      Call.fcntl 3 FcntlCmd.F_GETFL 0,
      Call.fcntl 3 FcntlCmd.F_SETFL 2048]
    (by decide) (by decide) (by decide) (by decide)

/-- C7: `socket_create_tcp_server` is a single-shot accept.  When `select`
reports a timeout (0) or an error (-1) it returns `INVALID_SOCKET` and `accept`
is not called; when the listener is reported ready, `accept` is called exactly
once, and the function returns the accepted descriptor if `accept` succeeded
and `INVALID_SOCKET` if it failed. -/
theorem socket_create_tcp_server_single_shot (os : Os) (tcp_listen ms_timeout : Int) :
    let sel := Call.select (tcp_listen + 1) tcp_listen (Int.tdiv ms_timeout 1000)
      (Int.tmod ms_timeout 1000 * 1000)
    let acc := Call.accept tcp_listen
    let run := socket_create_tcp_server tcp_listen ms_timeout os []
    (os.ret [] sel = 0 ∨ os.ret [] sel = -1 → run = (Outcome.value INVALID_SOCKET, [sel]))
    ∧ (os.ret [] sel ≠ 0 → os.ret [] sel ≠ -1 → os.out [] sel ≠ 0 →
        (os.ret [sel] acc ≠ INVALID_SOCKET →
          run = (Outcome.value (os.ret [sel] acc), [sel, acc]))
        ∧ (os.ret [sel] acc = INVALID_SOCKET →
          run = (Outcome.value INVALID_SOCKET, [sel, acc]))) := by
  intro sel acc run
  refine ⟨?_, ?_⟩
  · intro h
    simp only [sel] at h
    rcases h with h | h <;>
      simp [run, socket_create_tcp_server, sel, h]
  · intro h0 h1 hs
    simp only [sel] at h0 h1 hs
    refine ⟨?_, ?_⟩
    · intro ha
      simp only [sel, acc, INVALID_SOCKET] at ha
      simp [run, socket_create_tcp_server, sel, acc, h0, h1, hs, ha, INVALID_SOCKET,
        SOCKET_ERROR]
    · intro ha
      simp only [sel, acc] at ha
      simp [run, socket_create_tcp_server, sel, acc, h0, h1, hs, ha]

theorem socket_create_tcp_server_single_shot_witness :
    socket_create_tcp_server 3 1500 osAllSucceed []
      = (Outcome.value 4, [Call.select 4 3 1 500000, Call.accept 3]) :=
  ((socket_create_tcp_server_single_shot osAllSucceed 3 1500).2 (by decide) (by decide)
    (by decide)).1 (by decide)

/-- C8: `socket_create_tcp_client` returns `INVALID_SOCKET` if socket creation
or connect fails; on connect failure it closes the socket it created, once,
before returning; when both succeed it returns the created descriptor and
does not close it. -/
theorem socket_create_tcp_client_contract (b : Build) (os : Os) (s_server_addr : String)
    (server_port : Nat) :
    let sock := Call.socket AddrFamily.AF_INET SockType.SOCK_STREAM Protocol.IPPROTO_TCP
    let fd := os.ret [] sock
    let conn := Call.connect fd
      (sockaddr_in.mk AddrFamily.AF_INET (htons b server_port) (inet_addr b s_server_addr))
    let run := socket_create_tcp_client b s_server_addr server_port os []
    (fd = INVALID_SOCKET →
      run = (Outcome.value INVALID_SOCKET, [sock, Call.printf "socket() failed!\n" []]))
    ∧ (fd ≠ INVALID_SOCKET → os.ret [sock] conn = SOCKET_ERROR →
      run = (Outcome.value INVALID_SOCKET,
        [sock, conn, Call.printf "connect() failed!\n" [], closeCall b fd]))
    ∧ (fd ≠ INVALID_SOCKET → os.ret [sock] conn ≠ SOCKET_ERROR →
      run = (Outcome.value fd, [sock, conn])) := by
  intro sock fd conn run
  refine ⟨?_, ?_, ?_⟩
  · intro h
    simp only [sock, fd, conn] at h
    simp [run, socket_create_tcp_client, sock, fd, conn, h]
  · intro h hc
    simp only [sock, fd, conn] at h hc
    simp [run, socket_create_tcp_client, sock, fd, conn, h, hc]
  · intro h hc
    simp only [sock, fd, conn] at h hc
    simp [run, socket_create_tcp_client, sock, fd, conn, h, hc]

theorem socket_create_tcp_client_contract_witness :
    socket_create_tcp_client posixBuild "127.0.0.1" 1012 osConnectRefused []
      = (Outcome.value INVALID_SOCKET,
          [Call.socket AddrFamily.AF_INET SockType.SOCK_STREAM Protocol.IPPROTO_TCP,
            Call.connect 3 (sockaddr_in.mk AddrFamily.AF_INET (htons posixBuild 1012)
              (inet_addr posixBuild "127.0.0.1")),
            Call.printf "connect() failed!\n" [],
            closeCall posixBuild 3]) :=
  (socket_create_tcp_client_contract posixBuild osConnectRefused "127.0.0.1" 1012).2.1
    (by decide) (by decide)

/-- C9: `socket_create_mc` fails at any step after socket creation and closes
what it created.  With a valid group and a created socket `fd`, whichever of
the steps disable loopback, set TTL, set outbound interface, mark
non-blocking, bind, connect is the first to fail, the function returns
`INVALID_SOCKET`, the failing step is followed by the diagnostic and one
closing call on `fd` and by nothing else, and no closing call occurs before
it; when every step succeeds the function returns `fd` and the history holds
no closing call. -/
theorem socket_create_mc_failure_closes (b : Build) (os : Os) (ip_if ip_grp : String) (port : Nat)
    (ttl : Int) (hgrp : IN_MULTICAST (ntohl b (inet_addr b ip_grp)) = true) (r : Int) (h5 : Trace) :
    let sock := Call.socket AddrFamily.AF_INET SockType.SOCK_DGRAM Protocol.IPPROTO_UDP
    let fd := os.ret [] sock
    let loop := Call.setsockopt fd Level.IPPROTO_IP OptName.IP_MULTICAST_LOOP (OptVal.char 0)
    let sttl := Call.setsockopt fd Level.IPPROTO_IP OptName.IP_MULTICAST_TTL (OptVal.char ttl)
    let sif := Call.setsockopt fd Level.IPPROTO_IP OptName.IP_MULTICAST_IF
      (OptVal.in_addr (inet_addr b ip_if))
    let bnd := Call.bind fd (sockaddr_in.mk AddrFamily.AF_INET (htons b port) (htonl b INADDR_ANY))
    let conn := Call.connect fd
      (sockaddr_in.mk AddrFamily.AF_INET (htons b port) (inet_addr b ip_grp))
    let close := closeCall b fd
    let run := socket_create_mc b ip_if ip_grp port ttl os []
    fd ≠ INVALID_SOCKET →
    (os.ret [sock] loop ≠ 0 →
      run = (Outcome.value INVALID_SOCKET,
        [sock, loop, Call.printf "disable loop back error: %s\n" [PArg.s ip_grp], close]))
    ∧ (os.ret [sock] loop = 0 → os.ret [sock, loop] sttl ≠ 0 →
      run = (Outcome.value INVALID_SOCKET,
        [sock, loop, sttl, Call.printf "set time-to-live error: %s\n" [PArg.s ip_grp], close]))
    ∧ (os.ret [sock] loop = 0 → os.ret [sock, loop] sttl = 0 → os.ret [sock, loop, sttl] sif ≠ 0 →
      run = (Outcome.value INVALID_SOCKET,
        [sock, loop, sttl, sif, Call.printf "set interface error: %s\n" [PArg.s ip_if], close]))
    ∧ (os.ret [sock] loop = 0 → os.ret [sock, loop] sttl = 0 → os.ret [sock, loop, sttl] sif = 0 →
        set_non_blocking b fd 1 os [sock, loop, sttl, sif] = (Outcome.value r, h5) →
        close ∉ h5
        ∧ (r ≠ 0 →
          run = (Outcome.value INVALID_SOCKET,
            h5 ++ [Call.printf "Error marking as non-blocking: %s\n" [PArg.s ip_grp], close]))
        ∧ (r = 0 → os.ret h5 bnd ≠ 0 →
          run = (Outcome.value INVALID_SOCKET,
            h5 ++ [bnd, Call.printf "Error associcates a local address: %d, %d\n"
              [PArg.d port, PArg.d INADDR_ANY], close]))
        ∧ (r = 0 → os.ret h5 bnd = 0 → os.ret (h5 ++ [bnd]) conn ≠ 0 →
          run = (Outcome.value INVALID_SOCKET,
            h5 ++ [bnd, conn,
              Call.printf "Error connecting multicast address: %s\n" [PArg.s ip_grp], close]))
        ∧ (r = 0 → os.ret h5 bnd = 0 → os.ret (h5 ++ [bnd]) conn = 0 →
          run = (Outcome.value fd, h5 ++ [bnd, conn]))) := by
  intro sock fd loop sttl sif bnd conn close run hfd
  simp only [fd, sock] at hfd
  refine ⟨?_, ?_, ?_, ?_⟩
  · intro h1
    simp only [sock, fd, loop] at h1
    simp [run, socket_create_mc, sock, fd, loop, close, hgrp, hfd, h1]
  · intro h1 h2
    simp only [sock, fd, loop, sttl] at h1 h2
    simp [run, socket_create_mc, sock, fd, loop, sttl, close, hgrp, hfd, h1, h2]
  · intro h1 h2 h3
    simp only [sock, fd, loop, sttl, sif] at h1 h2 h3
    simp [run, socket_create_mc, sock, fd, loop, sttl, sif, close, hgrp, hfd, h1, h2, h3]
  · intro h1 h2 h3 hnb
    have hcl : close ∉ h5 := by
      apply closeCall_not_mem_set_non_blocking b fd 1 os _ h5 r fd hnb
      simp only [close, closeCall, sock, loop, sttl, sif]
      split <;> simp
    simp only [sock, fd, loop, sttl, sif] at h1 h2 h3 hnb
    refine ⟨hcl, ?_, ?_, ?_, ?_⟩
    · intro hr
      simp [run, socket_create_mc, sock, fd, loop, sttl, sif, close, hgrp, hfd, h1, h2, h3,
        run_bind_value _ _ _ _ _ _ hnb, hr]
    · intro hr hb
      simp only [sock, fd, bnd] at hb
      simp [run, socket_create_mc, sock, fd, loop, sttl, sif, bnd, close, hgrp, hfd, h1, h2, h3,
        run_bind_value _ _ _ _ _ _ hnb, hr, hb]
    · intro hr hb hc
      simp only [sock, fd, bnd, conn] at hb hc
      simp [run, socket_create_mc, sock, fd, loop, sttl, sif, bnd, conn, close, hgrp, hfd, h1, h2,
        h3, run_bind_value _ _ _ _ _ _ hnb, hr, hb, hc]
    · intro hr hb hc
      simp only [sock, fd, bnd, conn] at hb hc
      simp [run, socket_create_mc, sock, fd, loop, sttl, sif, bnd, conn, close, hgrp, hfd, h1, h2,
        h3, run_bind_value _ _ _ _ _ _ hnb, hr, hb, hc]

theorem socket_create_mc_failure_closes_witness :
    IN_MULTICAST (ntohl posixBuild (inet_addr posixBuild "233.1.1.101")) = true
    ∧ socket_create_mc posixBuild "127.0.0.1" "233.1.1.101" 1105 2 osAllSucceed []
      = (Outcome.value 3,
          [Call.socket AddrFamily.AF_INET SockType.SOCK_DGRAM Protocol.IPPROTO_UDP,
            Call.setsockopt 3 Level.IPPROTO_IP OptName.IP_MULTICAST_LOOP (OptVal.char 0),
            Call.setsockopt 3 Level.IPPROTO_IP OptName.IP_MULTICAST_TTL (OptVal.char 2),
            Call.setsockopt 3 Level.IPPROTO_IP OptName.IP_MULTICAST_IF
              (OptVal.in_addr (inet_addr posixBuild "127.0.0.1")),
            Call.fcntl 3 FcntlCmd.F_GETFL 0,
            Call.fcntl 3 FcntlCmd.F_SETFL 2048]
          ++ [Call.bind 3 (sockaddr_in.mk AddrFamily.AF_INET (htons posixBuild 1105)
                (htonl posixBuild INADDR_ANY)),
              Call.connect 3 (sockaddr_in.mk AddrFamily.AF_INET (htons posixBuild 1105)
                (inet_addr posixBuild "233.1.1.101"))]) :=
  ⟨by decide,
    ((socket_create_mc_failure_closes posixBuild osAllSucceed "127.0.0.1" "233.1.1.101" 1105 2
      (by decide) 0
      [Call.socket AddrFamily.AF_INET SockType.SOCK_DGRAM Protocol.IPPROTO_UDP,
        Call.setsockopt 3 Level.IPPROTO_IP OptName.IP_MULTICAST_LOOP (OptVal.char 0),
        Call.setsockopt 3 Level.IPPROTO_IP OptName.IP_MULTICAST_TTL (OptVal.char 2),
        Call.setsockopt 3 Level.IPPROTO_IP OptName.IP_MULTICAST_IF
          (OptVal.in_addr (inet_addr posixBuild "127.0.0.1")),
        Call.fcntl 3 FcntlCmd.F_GETFL 0,
        Call.fcntl 3 FcntlCmd.F_SETFL 2048]
      (by decide)).2.2.2 (by decide) (by decide) (by decide) (by decide)).2.2.2.2
      rfl (by decide) (by decide)⟩

/-- C10 fails on the build without `_MSC_VER`: when the operating system
refuses to create the socket, `socket_add_mc` does not return
`INVALID_SOCKET`; it prints a line and terminates the process with
`exit(1)`.  The same holds when joining the group fails (`exit(-1)`) and when
`bind` fails (`exit(0)`). -/
theorem socket_add_mc_posix_exits (b : Build) (os : Os) (ip_if ip_grp : String) (port : Nat)
    (hb : b.MSC_VER = false) :
    let warn := Call.printf "Warning: ip_if %s not supported to set on Linux, Please use \"route add -net 224.0.0.0 netmask 224.0.0.0 eth0\"(or similar)\n" [PArg.s ip_if]
    let sock := Call.socket AddrFamily.AF_INET SockType.SOCK_DGRAM Protocol.zero
    let fd := os.ret [warn] sock
    let ghbn := Call.gethostbyname ip_grp
    let join := Call.setsockopt fd Level.IPPROTO_IP OptName.IP_ADD_MEMBERSHIP
      (OptVal.ip_mreq (os.out [warn, sock] ghbn).toNat (htonl b INADDR_ANY))
    let pton := Call.inet_pton AddrFamily.AF_INET ip_grp
    let bnd := Call.bind fd (sockaddr_in.mk AddrFamily.AF_INET (htons b port)
      (os.out [warn, sock, ghbn, join] pton).toNat)
    let run := socket_add_mc b ip_if ip_grp port os []
    (fd < 0 →
      run = (Outcome.exited 1, [warn, sock, Call.printf "socket creating err in udptalk\n" []]))
    ∧ (0 ≤ fd → os.ret [warn, sock] ghbn ≠ 0 → os.ret [warn, sock, ghbn] join = -1 →
      run = (Outcome.exited (-1), [warn, sock, ghbn, join, Call.perror "setsockopt"]))
    ∧ (0 ≤ fd → os.ret [warn, sock] ghbn ≠ 0 → os.ret [warn, sock, ghbn] join ≠ -1 →
        0 ≤ os.ret [warn, sock, ghbn, join] pton → os.ret [warn, sock, ghbn, join, pton] bnd = -1 →
      run = (Outcome.exited 0, [warn, sock, ghbn, join, pton, bnd, Call.printf "Bind error\n" []]))
    := by
  intro warn sock fd ghbn join pton bnd run
  refine ⟨?_, ?_, ?_⟩
  · intro h1
    simp only [warn, sock, fd] at h1
    simp [run, socket_add_mc, socket_add_mc_posix, hb, warn, sock, h1]
  · intro h1 h2 h3
    have h1 := not_lt.mpr h1
    simp only [warn, sock, fd, ghbn, join] at h1 h2 h3
    simp [run, socket_add_mc, socket_add_mc_posix, hb, warn, sock, fd, ghbn, join, h1, h2, h3]
  · intro h1 h2 h3 h4 h5
    have h1 := not_lt.mpr h1
    have h4 := not_lt.mpr h4
    simp only [warn, sock, fd, ghbn, join, pton, bnd] at h1 h2 h3 h4 h5
    simp only [run, socket_add_mc, socket_add_mc_posix, hb, warn, sock, fd, ghbn, join, pton, bnd,
      Bool.false_eq_true, if_false, run_ite_apply, run_bind_sys, run_bind_sys_out, run_bind_ite,
      run_bind_pure, run_pure_apply, run_bind_perror, run_bind_printf, run_bind_exit,
      run_bind_errno, run_exit_apply, List.nil_append, List.cons_append, List.append_assoc,
      List.singleton_append, h1, h2, h3, h4, h5, if_true]

theorem socket_add_mc_posix_exits_witness :
    posixBuild.MSC_VER = false
    ∧ socket_add_mc posixBuild "127.0.0.1" "233.1.1.101" 1105 osAllFail []
      = (Outcome.exited 1,
          [Call.printf "Warning: ip_if %s not supported to set on Linux, Please use \"route add -net 224.0.0.0 netmask 224.0.0.0 eth0\"(or similar)\n"
              [PArg.s "127.0.0.1"],
            Call.socket AddrFamily.AF_INET SockType.SOCK_DGRAM Protocol.zero,
            Call.printf "socket creating err in udptalk\n" []]) :=
  ⟨rfl, (socket_add_mc_posix_exits posixBuild osAllFail "127.0.0.1" "233.1.1.101" 1105 rfl).1
    (by decide)⟩

/-- C11: `socket_send` and `socket_recv` are thin wrappers.  From any history,
`socket_send` invokes `send` exactly once, with the same descriptor, data and
length and with flags 0, and returns what `send` returned, whether that is a
full count, a partial count or a negative value; `socket_recv` does the same
with `recv`. -/
theorem socket_send_recv_thin (os : Os) (fd : Int) (data : List Nat) (len : Int) (tr : Trace) :
    socket_send fd data len os tr
      = (Outcome.value (os.ret tr (Call.send fd data len 0)), tr ++ [Call.send fd data len 0])
    ∧ socket_recv fd len os tr
      = (Outcome.value (os.ret tr (Call.recv fd len 0)), tr ++ [Call.recv fd len 0]) :=
  ⟨rfl, rfl⟩

theorem array_store_some_iff (buf : List Nat) (i : Int) (v : Nat) :
    (array_store buf i v).isSome = true ↔ 0 ≤ i ∧ i < buf.length := by
  unfold array_store
  split <;> simp_all

/-- C13 fails in `snd`: on its array of `BUF_SIZE` elements, a receive result
of 4096 makes the statement `buf[len] = 0` store outside the array; results
from 1 to 4095 store inside it.  In `rcv`, on its array of `BUF_SIZE + 1`
elements, every result from 0 to 4096 stores inside the array. -/
theorem tcp_demo_terminator_bounds (b : Build) (os : Os) (sock len : Int) (buf : List Nat)
    (tr : Trace) (hlen : os.ret tr (Call.recv sock 4096 0) = len) :
    (buf.length = snd_buf_size → len = 4096 →
      snd_receive sock buf os tr = (Outcome.value none, tr ++ [Call.recv sock 4096 0]))
    ∧ (buf.length = snd_buf_size → 0 < len → len < 4096 →
      snd_receive sock buf os tr
        = (Outcome.value (some (buf.set len.toNat 0)),
            tr ++ [Call.recv sock 4096 0,
              Call.printf "TCP serRecv[%d]: \"%s\"\n" [PArg.d len]]))
    ∧ (buf.length = rcv_buf_size → 0 ≤ len → len ≤ 4096 →
      rcv_iteration b sock buf os tr
        = (Outcome.value (some (sock, buf.set len.toNat 0)),
            tr ++ [Call.recv sock 4096 0,
              Call.printf "TCP received[%d]: \"%s\"\n" [PArg.d len]])) := by
  refine ⟨?_, ?_, ?_⟩
  · intro hb hl
    subst hl
    have hs : array_store buf 4096 0 = none := by
      unfold array_store
      rw [hb, if_neg]
      simp only [snd_buf_size, BUF_SIZE]
      omega
    simp [snd_receive, socket_recv, BUF_SIZE, hlen, hs]
  · intro hb h0 h1
    have hs : array_store buf len 0 = some (buf.set len.toNat 0) := by
      unfold array_store
      rw [hb, if_pos]
      constructor
      · omega
      · simp only [snd_buf_size, BUF_SIZE]; omega
    have hne : ¬ len = 0 := by omega
    simp [snd_receive, socket_recv, BUF_SIZE, hlen, hs, h0, hne]
  · intro hb h0 h1
    have hs : array_store buf len 0 = some (buf.set len.toNat 0) := by
      unfold array_store
      rw [hb, if_pos]
      constructor
      · omega
      · simp only [rcv_buf_size, BUF_SIZE]; omega
    simp [rcv_iteration, socket_recv, BUF_SIZE, hlen, hs, h0]

theorem tcp_demo_terminator_bounds_witness :
    osRecvFull.ret [] (Call.recv 4 4096 0) = 4096
    ∧ (List.replicate 4096 65).length = snd_buf_size
    ∧ snd_receive 4 (List.replicate 4096 65) osRecvFull []
      = (Outcome.value none, [] ++ [Call.recv 4 4096 0]) :=
  ⟨rfl, List.length_replicate 4096 65,
    (tcp_demo_terminator_bounds posixBuild osRecvFull 4 4096 (List.replicate 4096 65) [] rfl).1
      (List.length_replicate 4096 65) rfl⟩

/-- C14: `socket_create_tcp_listen` neither leaks nor reuses the socket it
creates.  With a created socket `fd`, when `bind` fails, when `listen` fails
and when marking non-blocking fails the function returns `INVALID_SOCKET`,
the last call of the run is the closing call on `fd`, and no closing call
occurs before it; when every step succeeds it returns `fd` and the history
holds no closing call. -/
theorem socket_create_tcp_listen_no_leak (b : Build) (os : Os) (s_if_ip : String) (port : Nat)
    (r : Int) (nb : Trace) :
    let sock := Call.socket AddrFamily.AF_INET SockType.SOCK_STREAM Protocol.IPPROTO_TCP
    let fd := os.ret [] sock
    let bnd := Call.bind fd (sockaddr_in.mk AddrFamily.AF_INET (htons b port) (inet_addr b s_if_ip))
    let lsn := Call.listen fd 5
    let close := closeCall b fd
    let run := socket_create_tcp_listen b s_if_ip port os []
    fd ≠ INVALID_SOCKET →
    (os.ret [sock] bnd ≠ 0 →
      run = (Outcome.value INVALID_SOCKET, [sock, bnd] ++ [close]) ∧ close ∉ [sock, bnd])
    ∧ (os.ret [sock] bnd = 0 → os.ret [sock, bnd] lsn ≠ 0 →
      run = (Outcome.value INVALID_SOCKET, [sock, bnd, lsn] ++ [close])
        ∧ close ∉ [sock, bnd, lsn])
    ∧ (os.ret [sock] bnd = 0 → os.ret [sock, bnd] lsn = 0 →
        set_non_blocking b fd 1 os [sock, bnd, lsn] = (Outcome.value r, nb) →
        close ∉ nb
        ∧ (r ≠ 0 → run = (Outcome.value INVALID_SOCKET, nb ++ [close]))
        ∧ (r = 0 → run = (Outcome.value fd, nb))) := by
  intro sock fd bnd lsn close run hfd
  simp only [fd, sock] at hfd
  have hc2 : close ∉ [sock, bnd] := by
    simp only [close, closeCall, sock, bnd]
    split <;> simp
  have hc3 : close ∉ [sock, bnd, lsn] := by
    simp only [close, closeCall, sock, bnd, lsn]
    split <;> simp
  refine ⟨?_, ?_, ?_⟩
  · intro hb
    simp only [sock, fd, bnd] at hb
    refine ⟨?_, hc2⟩
    simp [run, socket_create_tcp_listen, sock, fd, bnd, close, hfd, hb]
  · intro hb hl
    simp only [sock, fd, bnd, lsn] at hb hl
    refine ⟨?_, hc3⟩
    simp [run, socket_create_tcp_listen, sock, fd, bnd, lsn, close, MAX_CONN, hfd, hb, hl]
  · intro hb hl hn
    have hcl : close ∉ nb :=
      closeCall_not_mem_set_non_blocking b fd 1 os _ nb r fd hn hc3
    simp only [sock, fd, bnd, lsn] at hb hl hn
    refine ⟨hcl, ?_, ?_⟩
    · intro hr
      simp [run, socket_create_tcp_listen, sock, fd, bnd, lsn, close, MAX_CONN, hfd, hb, hl,
        run_bind_value _ _ _ _ _ _ hn, hr]
    · intro hr
      simp [run, socket_create_tcp_listen, sock, fd, bnd, lsn, close, MAX_CONN, hfd, hb, hl,
        run_bind_value _ _ _ _ _ _ hn, hr]

theorem socket_create_tcp_listen_no_leak_witness :
    socket_create_tcp_listen posixBuild "127.0.0.1" 1012 osListenFails []
        = (Outcome.value INVALID_SOCKET,
            [Call.socket AddrFamily.AF_INET SockType.SOCK_STREAM Protocol.IPPROTO_TCP,
              Call.bind 3 (sockaddr_in.mk AddrFamily.AF_INET (htons posixBuild 1012)
                (inet_addr posixBuild "127.0.0.1")),
              Call.listen 3 5]
            ++ [closeCall posixBuild 3])
      ∧ closeCall posixBuild 3
        ∉ [Call.socket AddrFamily.AF_INET SockType.SOCK_STREAM Protocol.IPPROTO_TCP,
            Call.bind 3 (sockaddr_in.mk AddrFamily.AF_INET (htons posixBuild 1012)
              (inet_addr posixBuild "127.0.0.1")),
            Call.listen 3 5] :=
  ((socket_create_tcp_listen_no_leak posixBuild osListenFails "127.0.0.1" 1012 0 [])
    (by decide)).2.1 (by decide) (by decide)

/-- C15: the conversion of the timeout in `socket_create_tcp_server` is exact.
For every `ms_timeout ≥ 0` the `select` call, which is the first call of the
run, carries `tv_sec = ms_timeout / 1000` and
`tv_usec = (ms_timeout % 1000) * 1000`, and these satisfy
`tv_sec * 1000000 + tv_usec = ms_timeout * 1000` and `0 ≤ tv_usec < 1000000`. -/
theorem socket_create_tcp_server_timeval (os : Os) (tcp_listen ms_timeout : Int)
    (h : 0 ≤ ms_timeout) :
    ∃ tv_sec tv_usec,
      (socket_create_tcp_server tcp_listen ms_timeout os []).2.head?
        = some (Call.select (tcp_listen + 1) tcp_listen tv_sec tv_usec)
      ∧ tv_sec = ms_timeout / 1000
      ∧ tv_usec = ms_timeout % 1000 * 1000
      ∧ tv_sec * 1000000 + tv_usec = ms_timeout * 1000
      ∧ 0 ≤ tv_usec ∧ tv_usec < 1000000 := by
  have e1 : Int.tdiv ms_timeout 1000 = ms_timeout / 1000 :=
    Int.tdiv_eq_ediv h (by norm_num)
  have e2 : Int.tmod ms_timeout 1000 = ms_timeout % 1000 :=
    Int.tmod_eq_emod h (by norm_num)
  refine ⟨Int.tdiv ms_timeout 1000, Int.tmod ms_timeout 1000 * 1000, ?_, e1, by rw [e2], ?_, ?_, ?_⟩
  · simp only [socket_create_tcp_server, run_bind_sys_out, run_ite_apply, run_pure_apply]
    split
    · rfl
    · split
      · rfl
      · simp only [run_bind_ite, run_ite_apply, run_bind_sys, run_bind_pure, run_pure_apply]
        repeat' (first | rfl | split)
  · rw [e1, e2]; omega
  · rw [e2]; omega
  · rw [e2]; omega

theorem socket_create_tcp_server_timeval_witness :
    (0 : Int) ≤ 1500
    ∧ ∃ tv_sec tv_usec,
      (socket_create_tcp_server 3 1500 osAllSucceed []).2.head?
        = some (Call.select (3 + 1) 3 tv_sec tv_usec)
      ∧ tv_sec = 1500 / 1000
      ∧ tv_usec = 1500 % 1000 * 1000
      ∧ tv_sec * 1000000 + tv_usec = 1500 * 1000
      ∧ 0 ≤ tv_usec ∧ tv_usec < 1000000 :=
  ⟨by decide, socket_create_tcp_server_timeval osAllSucceed 3 1500 (by decide)⟩

theorem ntohl_INADDR_NONE (b : Build) : ntohl b INADDR_NONE = 0xffffffff := by
  unfold ntohl INADDR_NONE
  split <;> rfl

/-- C16: an unparsable group address is rejected by `socket_create_mc`.
Whenever `inet_addr` returns `INADDR_NONE` for the group string, the test
`IN_MULTICAST(ntohl(0xFFFFFFFF))` is false, the function returns
`INVALID_SOCKET`, and the only primitive it invokes is the `printf` of the
diagnostic: no socket is created. -/
theorem socket_create_mc_rejects_unparsable (b : Build) (os : Os) (ip_if ip_grp : String)
    (port : Nat) (ttl : Int) (tr : Trace) (h : inet_addr b ip_grp = INADDR_NONE) :
    IN_MULTICAST (ntohl b 0xffffffff) = false
    ∧ socket_create_mc b ip_if ip_grp port ttl os tr
      = (Outcome.value INVALID_SOCKET,
          tr ++ [Call.printf "invalid multi-cast address: %s\n" [PArg.s ip_grp]]) := by
  have hv : IN_MULTICAST (ntohl b 0xffffffff) = false := by
    have := ntohl_INADDR_NONE b
    unfold INADDR_NONE at this
    rw [this]
    decide
  refine ⟨hv, ?_⟩
  apply socket_create_mc_invalid_group
  rw [h]
  exact hv

theorem socket_create_mc_rejects_unparsable_witness :
    inet_addr posixBuild "multicast" = INADDR_NONE
    ∧ IN_MULTICAST (ntohl posixBuild 0xffffffff) = false
    ∧ socket_create_mc posixBuild "127.0.0.1" "multicast" 1105 2 osAllSucceed []
      = (Outcome.value INVALID_SOCKET,
          [] ++ [Call.printf "invalid multi-cast address: %s\n" [PArg.s "multicast"]]) :=
  ⟨by decide,
    socket_create_mc_rejects_unparsable posixBuild osAllSucceed "127.0.0.1" "multicast" 1105 2 []
      (by decide)⟩

end XSocket
